import Mathlib

/-!
# zalo-beeper-bridge: the connector package, embedded in Lean

A shallow embedding of `pkg/connector` (the Zalo network connector of the
bridge) and the properties of it that the specification states.

Conventions of the embedding

* Go `string` is Lean `String`; the byte `':'` and the ASCII digits are single
  characters in both, so splitting and decimal parsing agree.
* Go `int` is `Int`, restricted to 64 bits where the library checks the range.
* `error` is a `String` (all errors of the package are built by `fmt.Errorf`);
  fallible functions return `Except String _`.
* Calls that leave the process (HTTP, WebSocket dial, timers, the hosting
  framework) are recorded, in order, in a list of `Effect`s; their results are
  inputs of the embedded function.
-/

namespace Connector

/-! ## Go library functions used by the package -/

/-- The character of a decimal digit `d < 10`. -/
def digitChar (d : Nat) : Char := Char.ofNat (48 + d)

/-- Whether a character is one of `'0'..'9'`. -/
def isDigit (c : Char) : Bool := decide (48 ≤ c.toNat) && decide (c.toNat ≤ 57)

/-- The value of a decimal digit character. -/
def digitVal (c : Char) : Nat := c.toNat - 48

/-- Decimal digits of a natural number, most significant first; `fuel` bounds the
number of digits and `fuel = n + 1` is always enough. -/
def decDigits : Nat → Nat → List Char
  | 0, _ => []
  | fuel + 1, n =>
    if n < 10 then [digitChar n] else decDigits fuel (n / 10) ++ [digitChar (n % 10)]

/-- The verb `%d` of `fmt.Sprintf` on an `int`: a minus sign for a negative
number, then the decimal digits without leading zeros. -/
def formatInt (i : Int) : String :=
  if i < 0 then ⟨'-' :: decDigits (i.natAbs + 1) i.natAbs⟩
  else ⟨decDigits (i.natAbs + 1) i.natAbs⟩

/-- The digit loop of `strconv.Atoi`: `none` on the first character that is not
a decimal digit. -/
def parseDigits : List Char → Nat → Option Nat
  | [], acc => some acc
  | c :: cs, acc => if isDigit c then parseDigits cs (acc * 10 + digitVal c) else none

/-- Go `strconv.Atoi` for a 64-bit `int`: an optional sign, then one or more
decimal digits, and the value must fit the type. `none` stands for the
returned error (syntax or range). -/
def Atoi (s : String) : Option Int :=
  match s.data with
  | [] => none
  | c :: rest =>
    let neg := c == '-'
    let body := if c == '-' || c == '+' then rest else c :: rest
    if body.isEmpty then none
    else
      match parseDigits body 0 with
      | none => none
      | some n =>
        if neg then (if n ≤ 2 ^ 63 then some (-(n : Int)) else none)
        else (if n < 2 ^ 63 then some (n : Int) else none)

/-- A decimal integer, as text: an optional sign `+` or `-` followed by one or
more decimal digits and nothing else. -/
def isDecimalInt (s : String) : Bool :=
  match s.data with
  | [] => false
  | c :: rest =>
    let body := if c == '-' || c == '+' then rest else c :: rest
    !body.isEmpty && body.all isDigit

/-- Cut a text at the first occurrence of `sep`: the text before it and the
text after it; `none` when `sep` does not occur. -/
def cutFirst (sep : Char) : List Char → Option (List Char × List Char)
  | [] => none
  | c :: cs =>
    if c = sep then some ([], cs)
    else
      match cutFirst sep cs with
      | none => none
      | some (a, b) => some (c :: a, b)

/-- Go `strings.SplitN(s, ":", 2)`: the whole text when it has no `':'`, else
the text before the first `':'` and the text after it. -/
def SplitN2 (s : String) : List String :=
  match cutFirst ':' s.data with
  | none => [s]
  | some (a, b) => [⟨a⟩, ⟨b⟩]

/-! ## types.go -/

/-- Thread type of a direct conversation. -/
def ThreadTypeUser : Int := 0

/-- Thread type of a group conversation. -/
def ThreadTypeGroup : Int := 1

/-- The framework type `networkid.PortalKey`. -/
structure PortalKey where
  ID : String
  Receiver : String
  deriving DecidableEq, Repr

/-- `MakePortalKey`: the portal key `"threadId:threadType"`. -/
def MakePortalKey (threadID : String) (threadType : Int) : PortalKey :=
  { ID := threadID ++ ":" ++ formatInt threadType, Receiver := "" }

/-- `ParsePortalKey`: thread id and thread type of a portal key. -/
def ParsePortalKey (key : PortalKey) : String × Int :=
  match SplitN2 key.ID with
  | [p0, p1] =>
    match Atoi p1 with
    | none => (p0, ThreadTypeUser)
    | some t => (p0, t)
  | _ => (key.ID, ThreadTypeUser)

/-- The JSON error body of the sidecar, `SidecarErrorResponse`. -/
structure SidecarErrorResponse where
  Error : String
  Code : String
  deriving DecidableEq, Repr

/-! ## sidecar_http_client.go -/

/-- What `httpClient.Do` hands back: the status code and the outcome of
`io.ReadAll(resp.Body)`. -/
structure HTTPResponse where
  StatusCode : Int
  Body : Except String String

/-- The outside world as one call of `doJSON` meets it. The result of each
library call is an input: `json.Marshal` of the request body,
`http.NewRequestWithContext`, `httpClient.Do`, and `json.Unmarshal` into the
error shape and into the caller's result. -/
structure Exchange (α : Type) where
  marshal : Except String String
  newRequest : Except String Unit
  roundTrip : Except String HTTPResponse
  unmarshalError : String → Except String SidecarErrorResponse
  unmarshalResult : String → Except String α

/-- `SidecarClient.doJSON`: perform a JSON request and decode the response.
`hasBody` is `body != nil`, `hasResult` is `result != nil`; the value is the
decoded result (when one was asked for) or the returned error. -/
def doJSON {α : Type} (x : Exchange α) (hasBody hasResult : Bool) : Except String (Option α) :=
  match (if hasBody then x.marshal else Except.ok "") with
  | .error err => .error ("marshal request: " ++ err)
  | .ok _ =>
    match x.newRequest with
    | .error err => .error ("create request: " ++ err)
    | .ok _ =>
      match x.roundTrip with
      | .error err => .error ("do request: " ++ err)
      | .ok resp =>
        match resp.Body with
        | .error err => .error ("read response: " ++ err)
        | .ok respBody =>
          if resp.StatusCode ≥ 400 then
            match x.unmarshalError respBody with
            | .ok errResp =>
              if errResp.Error ≠ "" then
                .error ("sidecar error (" ++ errResp.Code ++ "): " ++ errResp.Error)
              else
                .error ("sidecar HTTP " ++ formatInt resp.StatusCode ++ ": " ++ respBody)
            | .error _ =>
              .error ("sidecar HTTP " ++ formatInt resp.StatusCode ++ ": " ++ respBody)
          else if hasResult then
            match x.unmarshalResult respBody with
            | .error err => .error ("unmarshal response: " ++ err)
            | .ok r => .ok (some r)
          else .ok none

/-- The text `needle` occurs in `text` as a contiguous piece. -/
def Contains (text needle : String) : Prop := needle.data <:+: text.data

instance (text needle : String) : Decidable (Contains text needle) := by
  unfold Contains
  infer_instance

/-- A decoder for error bodies that knows the structured body
`{"error":"not found","code":"E404"}` and rejects every other text, as
`json.Unmarshal` rejects text that is not JSON. -/
def notFoundDecoder (body : String) : Except String SidecarErrorResponse :=
  if body = "\x7b\"error\":\"not found\",\"code\":\"E404\"\x7d" then
    .ok { Error := "not found", Code := "E404" }
  else .error "invalid character"

/-- An exchange in which the gateway answers with the given status and body. -/
def answer (status : Int) (body : String) : Exchange Unit :=
  { marshal := .ok "",
    newRequest := .ok (),
    roundTrip := .ok { StatusCode := status, Body := .ok body },
    unmarshalError := notFoundDecoder,
    unmarshalResult := fun _ => .ok () }

/-! ## Wire payloads and remote events -/

/-- The JSON shape of a message event, `SidecarMessageData`. -/
structure SidecarMessageData where
  MsgID : String
  Content : String
  ThreadID : String
  ThreadType : Int
  SenderID : String
  IsSelf : Bool
  Timestamp : Int
  Quote : String
  MsgType : String
  MediaURL : String
  Thumb : String
  Width : Int
  Height : Int
  deriving DecidableEq, Repr

/-- The JSON shape of a reaction event, `SidecarReactionData`. -/
structure SidecarReactionData where
  Emoji : String
  TargetMsgID : String
  SenderID : String
  ThreadID : String
  ThreadType : Int
  Action : String
  Timestamp : Int
  deriving DecidableEq, Repr

/-- The JSON shape of an undo event, `SidecarUndoData`. -/
structure SidecarUndoData where
  MsgID : String
  SenderID : String
  ThreadID : String
  ThreadType : Int
  Timestamp : Int
  deriving DecidableEq, Repr

/-- The WebSocket envelope, `SidecarEvent`; `EventType` is its field `Type`. -/
structure SidecarEvent where
  EventType : String
  Data : String
  Timestamp : Int
  deriving DecidableEq, Repr

/-- The framework constants `bridgev2.RemoteEvent...` that the package returns. -/
inductive RemoteEventType where
  | RemoteEventMessage
  | RemoteEventReaction
  | RemoteEventReactionRemove
  | RemoteEventMessageRemove
  deriving DecidableEq, Repr

/-- The three remote events of the package: `ZaloRemoteMessage`,
`ZaloRemoteReaction` and `ZaloRemoteMessageRemove`, each holding its payload. -/
inductive RemoteEvent where
  | ZaloRemoteMessage (data : SidecarMessageData)
  | ZaloRemoteReaction (data : SidecarReactionData)
  | ZaloRemoteMessageRemove (data : SidecarUndoData)
  deriving DecidableEq, Repr

/-- The `GetType` methods of the three remote events. -/
def RemoteEvent.GetType : RemoteEvent → RemoteEventType
  | .ZaloRemoteMessage _ => .RemoteEventMessage
  | .ZaloRemoteReaction data =>
    if data.Action = "remove" then .RemoteEventReactionRemove else .RemoteEventReaction
  | .ZaloRemoteMessageRemove _ => .RemoteEventMessageRemove

/-- The `GetPortalKey` methods of the three remote events. -/
def RemoteEvent.GetPortalKey : RemoteEvent → PortalKey
  | .ZaloRemoteMessage data => MakePortalKey data.ThreadID data.ThreadType
  | .ZaloRemoteReaction data => MakePortalKey data.ThreadID data.ThreadType
  | .ZaloRemoteMessageRemove data => MakePortalKey data.ThreadID data.ThreadType

/-- `json.Unmarshal` into each payload shape of the package, as far as the
package observes it: the decoded value or an error. -/
structure Unmarshal where
  message : String → Except String SidecarMessageData
  reaction : String → Except String SidecarReactionData
  undo : String → Except String SidecarUndoData

/-! ## The session: client.go, events.go and the inbound handlers -/

/-- `UserLoginMetadata`: the stored credentials of a login. -/
structure UserLoginMetadata where
  Cookie : String
  IMEI : String
  UserAgent : String
  UserID : String
  deriving DecidableEq, Repr

/-- `SidecarLoginResponse`, the answer of the session restore. -/
structure SidecarLoginResponse where
  UserID : String
  Cookie : String
  IMEI : String
  UserAgent : String
  deriving DecidableEq, Repr

/-- The framework type `status.BridgeStateEvent`. -/
inductive BridgeStateEvent where
  | StateStarting
  | StateUnconfigured
  | StateRunning
  | StateBridgeUnreachable
  | StateConnecting
  | StateBackfilling
  | StateConnected
  | StateTransientDisconnect
  | StateBadCredentials
  | StateUnknownError
  | StateLoggedOut
  deriving DecidableEq, Repr

/-- The fields of the framework type `status.BridgeState` that the package sets. -/
structure BridgeState where
  StateEvent : BridgeStateEvent
  Error : String
  Message : String
  deriving DecidableEq, Repr

/-- A WebSocket connection handle (`*websocket.Conn`), by identity. -/
abbrev Conn := Nat

/-- A cancellable lifetime (`context.Context`), by identity. -/
abbrev Ctx := Nat

/-- A `time.Duration`, in nanoseconds. -/
abbrev Duration := Int

/-- The constant `time.Second`. -/
def Second : Duration := 1000000000

/-- Two's complement wrap-around of 64-bit arithmetic. -/
def wrapInt64 (x : Int) : Int := (x + 2 ^ 63) % 2 ^ 64 - 2 ^ 63

/-- A call that leaves the client: on the sidecar, on the hosting framework
(`userLogin`), on the WebSocket dialer or a connection, on a timer, on a
lifetime, or the start of a goroutine. -/
inductive Effect where
  | loginCookie (cookie imei userAgent : String)
  | logout
  | bridgeState (state : BridgeState)
  | queueRemoteEvent (evt : RemoteEvent)
  | dial (wsURL : String)
  | close (conn : Conn)
  | wait (d : Duration)
  | cancel (ctx : Ctx)
  | goReadLoop (ctx : Ctx)
  deriving DecidableEq, Repr

/-- `ZaloClient`: the session of one login. `baseURL` is `sidecar.baseURL`,
`wsCancel` is the lifetime that the stored cancel function cancels, and
`effects` is the record, oldest first, of the calls the client has made. The
mutex and the logger are not represented. -/
structure ZaloClient where
  meta : UserLoginMetadata
  baseURL : String
  wsConn : Option Conn
  wsCancel : Option Ctx
  loggedIn : Bool
  effects : List Effect
  deriving DecidableEq, Repr

/-- Record one more call. -/
def ZaloClient.emit (c : ZaloClient) (e : Effect) : ZaloClient :=
  { c with effects := c.effects ++ [e] }

/-- The events handed to `userLogin.QueueRemoteEvent`, oldest first. -/
def ZaloClient.queue (c : ZaloClient) : List RemoteEvent :=
  c.effects.filterMap (fun e => match e with | .queueRemoteEvent evt => some evt | _ => none)

/-- The states handed to `userLogin.BridgeState.Send`, oldest first. -/
def ZaloClient.bridgeStates (c : ZaloClient) : List BridgeState :=
  c.effects.filterMap (fun e => match e with | .bridgeState st => some st | _ => none)

/-- The addresses dialed, oldest first. -/
def ZaloClient.dials (c : ZaloClient) : List String :=
  c.effects.filterMap (fun e => match e with | .dial u => some u | _ => none)

/-- The timer waits that ran to their end, oldest first. -/
def ZaloClient.waits (c : ZaloClient) : List Duration :=
  c.effects.filterMap (fun e => match e with | .wait d => some d | _ => none)

/-- The lifetimes of the read loops started, oldest first. -/
def ZaloClient.readLoops (c : ZaloClient) : List Ctx :=
  c.effects.filterMap (fun e => match e with | .goReadLoop ctx => some ctx | _ => none)

/-- Go `strings.Replace(s, old, new, 1)` on the characters of `s`. -/
def replaceFirst (old new : List Char) : List Char → List Char
  | [] => if old.isEmpty then new else []
  | c :: cs =>
    if old.isPrefixOf (c :: cs) then new ++ (c :: cs).drop old.length
    else c :: replaceFirst old new cs

/-- The address that `connectWS` dials. -/
def wsURL (baseURL : String) : String :=
  ⟨replaceFirst "http".data "ws".data baseURL.data⟩ ++ "/ws"

/-- `connectWS`: dial the sidecar WebSocket endpoint; `dialed` is what the
dialer returns. The second component is the returned error, if any. -/
def connectWS (dialed : Except String Conn) (c : ZaloClient) : ZaloClient × Option String :=
  let c := c.emit (.dial (wsURL c.baseURL))
  match dialed with
  | .error err => (c, some err)
  | .ok conn => ({ c with wsConn := some conn }, none)

/-- What `Connect` meets: the result of the session restore and of the dial. -/
structure ConnectEnv where
  loginCookie : Except String SidecarLoginResponse
  dial : Except String Conn

/-- The part of `Connect` after the session restore. The lifetime created by
`context.WithCancel` is named by the number of calls made so far. -/
def connectAfterRestore (env : ConnectEnv) (c : ZaloClient) : ZaloClient :=
  match connectWS env.dial c with
  | (c, some _) => c
  | (c, none) =>
    let wsCtx : Ctx := c.effects.length
    let c := { c with wsCancel := some wsCtx }
    let c := c.emit (.goReadLoop wsCtx)
    let c := { c with loggedIn := true }
    c.emit (.bridgeState { StateEvent := .StateConnected, Error := "", Message := "" })

/-- `ZaloClient.Connect`. -/
def Connect (env : ConnectEnv) (c : ZaloClient) : ZaloClient :=
  if c.meta.Cookie ≠ "" then
    let c := c.emit (.loginCookie c.meta.Cookie c.meta.IMEI c.meta.UserAgent)
    match env.loginCookie with
    | .error _ =>
      c.emit (.bridgeState
        { StateEvent := .StateBadCredentials,
          Error := "zalo-cookie-expired",
          Message := "Zalo session expired, please re-login" })
    | .ok _ => connectAfterRestore env c
  else connectAfterRestore env c

/-- `ZaloClient.Disconnect`. -/
def Disconnect (c : ZaloClient) : ZaloClient :=
  let c := { c with loggedIn := false }
  let c := match c.wsCancel with
    | some ctx => c.emit (.cancel ctx)
    | none => c
  match c.wsConn with
  | some conn => { c.emit (.close conn) with wsConn := none }
  | none => c

/-- `ZaloClient.IsLoggedIn`. -/
def IsLoggedIn (c : ZaloClient) : Bool := c.loggedIn

/-- `ZaloClient.LogoutRemote`. -/
def LogoutRemote (c : ZaloClient) : ZaloClient :=
  Disconnect (c.emit .logout)

/-- `handleMessageEvent`: process an incoming message of the sidecar. -/
def handleMessageEvent (u : Unmarshal) (c : ZaloClient) (data : String) : ZaloClient :=
  match u.message data with
  | .error _ => c
  | .ok msgData =>
    if msgData.IsSelf then c
    else c.emit (.queueRemoteEvent (.ZaloRemoteMessage msgData))

/-- `handleReactionEvent`: process a reaction event of the sidecar. -/
def handleReactionEvent (u : Unmarshal) (c : ZaloClient) (data : String) : ZaloClient :=
  match u.reaction data with
  | .error _ => c
  | .ok reactionData => c.emit (.queueRemoteEvent (.ZaloRemoteReaction reactionData))

/-- `handleUndoEvent`: process an undo event of the sidecar. -/
def handleUndoEvent (u : Unmarshal) (c : ZaloClient) (data : String) : ZaloClient :=
  match u.undo data with
  | .error _ => c
  | .ok undoData => c.emit (.queueRemoteEvent (.ZaloRemoteMessageRemove undoData))

/-- `handleSidecarEvent`: route an event by its type. -/
def handleSidecarEvent (u : Unmarshal) (c : ZaloClient) (evt : SidecarEvent) : ZaloClient :=
  if evt.EventType = "message" then handleMessageEvent u c evt.Data
  else if evt.EventType = "reaction" then handleReactionEvent u c evt.Data
  else if evt.EventType = "undo" then handleUndoEvent u c evt.Data
  else if evt.EventType = "group_event" then c
  else c

/-- What `handleWSReconnect` meets: whether the lifetime is found cancelled in
the wait before attempt `i`, and what the dial of attempt `i` returns. -/
structure ReconnectEnv where
  cancelled : Nat → Bool
  dial : Nat → Except String Conn

/-- The loop of `handleWSReconnect` from attempt number `attempt` on, with
`remaining = 10 - attempt` iterations left, followed by the statements after
the loop. -/
def reconnectLoop (env : ReconnectEnv) (ctx : Ctx) :
    Nat → Nat → Duration → ZaloClient → ZaloClient
  | 0, _, _, c => { c with loggedIn := false }
  | remaining + 1, attempt, backoff, c =>
    if env.cancelled attempt then c
    else
      let c := c.emit (.wait backoff)
      match connectWS (env.dial attempt) c with
      | (c, none) => c.emit (.goReadLoop ctx)
      | (c, some _) =>
        reconnectLoop env ctx remaining (attempt + 1)
          (min (wrapInt64 (backoff * 2)) (wrapInt64 (30 * Second))) c

/-- `handleWSReconnect`: reconnect with exponential backoff. -/
def handleWSReconnect (env : ReconnectEnv) (ctx : Ctx) (c : ZaloClient) : ZaloClient :=
  reconnectLoop env ctx 10 0 Second c

/-- A message payload sent by the local user. -/
def ownMessage : SidecarMessageData :=
  { MsgID := "m1", Content := "hi", ThreadID := "2468", ThreadType := 0, SenderID := "u1",
    IsSelf := true, Timestamp := 1700000000000, Quote := "", MsgType := "text",
    MediaURL := "", Thumb := "", Width := 0, Height := 0 }

/-- A reaction payload with the given action. -/
def reactionWith (action : String) : SidecarReactionData :=
  { Emoji := "heart", TargetMsgID := "m1", SenderID := "u2", ThreadID := "2468",
    ThreadType := 0, Action := action, Timestamp := 1700000000000 }

/-- A decoder given by a table: the payload text `"own"` is the message
`ownMessage`, a reaction payload text is taken as the action of the reaction
(`"none"` for a payload without an action), and everything else is rejected. -/
def tableUnmarshal : Unmarshal :=
  { message := fun data => if data = "own" then .ok ownMessage else .error "unexpected end",
    reaction := fun data =>
      if data = "none" then .ok (reactionWith "") else .ok (reactionWith data),
    undo := fun _ => .error "unexpected end" }

/-- The wait before attempt `i` as the specification gives it: `min(2^i, 30)`
seconds. -/
def specBackoff (i : Nat) : Duration := min (2 ^ i) 30 * Second

/-- The calls of `count` attempts in a row that all fail, the first after a
wait of `backoff`: each is a wait that runs to its end and then a dial. -/
def failedAttempts (url : String) : Nat → Duration → List Effect
  | 0, _ => []
  | count + 1, backoff =>
    .wait backoff :: .dial url ::
      failedAttempts url count (min (wrapInt64 (backoff * 2)) (wrapInt64 (30 * Second)))

/-- The operations that act on a session. -/
inductive Op where
  | connect (env : ConnectEnv)
  | disconnect
  | logoutRemote
  | sidecarEvent (u : Unmarshal) (evt : SidecarEvent)
  | wsReconnect (env : ReconnectEnv) (ctx : Ctx)

/-- Run one operation. -/
def Op.run : Op → ZaloClient → ZaloClient
  | .connect env, c => Connect env c
  | .disconnect, c => Disconnect c
  | .logoutRemote, c => LogoutRemote c
  | .sidecarEvent u evt, c => handleSidecarEvent u c evt
  | .wsReconnect env ctx, c => handleWSReconnect env ctx c

/-- All ten attempts of a reconnect are made and fail: no wait is cut short by
a cancellation and no dial succeeds. -/
def ReconnectEnv.exhausted (env : ReconnectEnv) : Prop :=
  ∀ i, i < 10 → env.cancelled i = false ∧ ∃ err, env.dial i = .error err

/-- A session of the account `"u1"` with a stored cookie, not connected, whose
sidecar is at `http://localhost:3500`. -/
def idleClient : ZaloClient :=
  { meta := { Cookie := "c", IMEI := "i", UserAgent := "ua", UserID := "u1" },
    baseURL := "http://localhost:3500",
    wsConn := none,
    wsCancel := none,
    loggedIn := false,
    effects := [] }

/-- A sidecar that restores the session and accepts the dial with handle 1. -/
def goodConnect : ConnectEnv :=
  { loginCookie := .ok { UserID := "u1", Cookie := "c", IMEI := "i", UserAgent := "ua" },
    dial := .ok 1 }

/-- A sidecar that rejects the stored cookie. -/
def expiredCookie : ConnectEnv :=
  { loginCookie := .error "sidecar error (E401): cookie expired", dial := .ok 1 }

/-- A network on which every redial fails and nothing is cancelled. -/
def allFail : ReconnectEnv :=
  { cancelled := fun _ => false, dial := fun _ => .error "connection refused" }

/-- The session `idleClient` after a successful `Connect`. -/
def liveClient : ZaloClient := Connect goodConnect idleClient

/-- The connection handles closed, oldest first. -/
def ZaloClient.closes (c : ZaloClient) : List Conn :=
  c.effects.filterMap (fun e => match e with | .close conn => some conn | _ => none)

/-- The lifetimes on which a cancel function was called, oldest first; a
lifetime named here is cancelled, and calling its cancel function again
changes nothing. -/
def ZaloClient.cancels (c : ZaloClient) : List Ctx :=
  c.effects.filterMap (fun e => match e with | .cancel ctx => some ctx | _ => none)

/-! ## The read loop (events.go) -/

/-- One turn of the loop of `wsReadLoop` as the outside world decides it:
whether the lifetime is found done at the top of the turn, what
`conn.ReadMessage` returns, whether `ctx.Err()` is set after a failed read, and
what a reconnect started by this turn would meet. -/
structure ReadTurn where
  ctxDone : Bool
  read : Except String String
  ctxErr : Bool
  reconnect : ReconnectEnv

/-- `wsReadLoop`: read events from the WebSocket and dispatch them.
`decodeEvent` is `json.Unmarshal` into the envelope. The list holds the turns
the outside world provides; when it is used up the loop is waiting in the
next read. -/
def wsReadLoop (u : Unmarshal) (decodeEvent : String → Except String SidecarEvent) (ctx : Ctx) :
    List ReadTurn → ZaloClient → ZaloClient
  | [], c => c
  | turn :: turns, c =>
    if turn.ctxDone then c
    else
      match c.wsConn with
      | none => c
      | some _ =>
        match turn.read with
        | .error _ =>
          if turn.ctxErr then c else handleWSReconnect turn.reconnect ctx c
        | .ok msg =>
          match decodeEvent msg with
          | .error _ => wsReadLoop u decodeEvent ctx turns c
          | .ok evt => wsReadLoop u decodeEvent ctx turns (handleSidecarEvent u c evt)

/-- The turn delivers the frame `msg`: the lifetime is not done and the read
returns `msg`. -/
def ReadTurn.delivers (turn : ReadTurn) (msg : String) : Prop :=
  turn.ctxDone = false ∧ turn.read = .ok msg

/-- The translation of a wire event as the specification gives it: a message
that is not self-sent, a reaction and an undo translate to one event each; a
payload that does not decode, a self-sent message, a `group_event` and an
unknown kind translate to nothing. -/
def translateEvent (u : Unmarshal) (evt : SidecarEvent) : Option RemoteEvent :=
  if evt.EventType = "message" then
    match u.message evt.Data with
    | .ok d => if d.IsSelf then none else some (.ZaloRemoteMessage d)
    | .error _ => none
  else if evt.EventType = "reaction" then
    match u.reaction evt.Data with
    | .ok d => some (.ZaloRemoteReaction d)
    | .error _ => none
  else if evt.EventType = "undo" then
    match u.undo evt.Data with
    | .ok d => some (.ZaloRemoteMessageRemove d)
    | .error _ => none
  else none

/-- The translation of a frame: nothing when the envelope does not decode,
else the translation of the wire event. -/
def translateFrame (u : Unmarshal) (decodeEvent : String → Except String SidecarEvent)
    (msg : String) : Option RemoteEvent :=
  match decodeEvent msg with
  | .error _ => none
  | .ok evt => translateEvent u evt

/-- An envelope decoder given by a table: the frame `"kind|data"` with a kind
of one lower-case word is the event of that kind with that payload, and a
frame without `'|'` is rejected. -/
def tableDecodeEvent (msg : String) : Except String SidecarEvent :=
  match cutFirst '|' msg.data with
  | none => .error "invalid character"
  | some (kind, data) => .ok { EventType := ⟨kind⟩, Data := ⟨data⟩, Timestamp := 0 }

/-- A turn that delivers the frame `msg`. -/
def frameTurn (msg : String) : ReadTurn :=
  { ctxDone := false, read := .ok msg, ctxErr := false, reconnect := allFail }

/-! ## Outbound handlers: handle_matrix.go, media.go, and GetChatInfo -/

/-- The framework constant `event.MsgText`. -/
def MsgText : String := "m.text"

/-- The framework constant `event.MsgNotice`. -/
def MsgNotice : String := "m.notice"

/-- The framework constant `event.MsgEmote`. -/
def MsgEmote : String := "m.emote"

/-- The framework constant `event.MsgImage`. -/
def MsgImage : String := "m.image"

/-- The parts of `bridgev2.MatrixMessage` that the package reads: the type, the
body and the content reference of `msg.Content`, and `msg.Portal.PortalKey`. -/
structure MatrixMessage where
  MsgType : String
  Body : String
  URL : String
  PortalKey : PortalKey
  deriving DecidableEq, Repr

/-- `SidecarSendResponse`. -/
structure SidecarSendResponse where
  MessageID : String
  deriving DecidableEq, Repr

/-- The part of `bridgev2.MatrixMessageResponse` that the package fills:
`DB.ID`. -/
structure MatrixMessageResponse where
  ID : String
  deriving DecidableEq, Repr

/-- A call made by an outbound handler: on the content store of the hosting
framework, on the file system, or on the gateway. -/
inductive Call where
  | downloadMedia (uri : String)
  | createTemp (pattern : String)
  | writeFile (path : String)
  | closeFile (path : String)
  | removeFile (path : String)
  | sendText (msg threadID : String) (threadType : Int) (quote : Option String)
  | sendImage (filePath threadID : String) (threadType : Int)
  | getGroupInfo (groupID : String)
  | getUserInfo (userID : String)
  deriving DecidableEq, Repr

/-- Whether a call goes to the gateway. -/
def Call.isGateway : Call → Bool
  | .sendText _ _ _ _ => true
  | .sendImage _ _ _ => true
  | .getGroupInfo _ => true
  | .getUserInfo _ => true
  | _ => false

/-- The surroundings of an outbound handler: the calls made so far, oldest
first, and the files that exist. -/
structure Host where
  calls : List Call
  files : List String
  deriving DecidableEq, Repr

/-- Record one more call. -/
def Host.call (h : Host) (k : Call) : Host := { h with calls := h.calls ++ [k] }

/-- The calls that went to the gateway, oldest first. -/
def Host.gatewayCalls (h : Host) : List Call := h.calls.filter Call.isGateway

/-- What an outbound send meets: the result of `intent.DownloadMedia`, the
directory and the random part `os.CreateTemp` uses for the name, the error of
`os.CreateTemp`, of `tmp.Write` and of `os.Remove` if any, and the results of
the gateway calls. -/
structure OutboundEnv where
  downloadMedia : Except String (List Nat)
  tempDir : String
  random : String
  createTemp : Option String
  write : Option String
  remove : Option String
  sendText : Except String SidecarSendResponse
  sendImage : Except String SidecarSendResponse

/-- The name `os.CreateTemp("", "mautrix-zalo-*")` gives the file: the
directory for temporary files, then the pattern with `*` replaced by a random
text. -/
def tempName (env : OutboundEnv) : String :=
  env.tempDir ++ "/mautrix-zalo-" ++ env.random

/-- Go `os.Remove`: when it returns no error the file is gone afterwards, and
when it returns an error the files are as before. The package discards the
returned error, so only the files tell the two apart. -/
def osRemove (env : OutboundEnv) (path : String) (h : Host) : Host :=
  match env.remove with
  | none =>
    { calls := h.calls ++ [.removeFile path], files := h.files.filter (fun f => f ≠ path) }
  | some _ => { calls := h.calls ++ [.removeFile path], files := h.files }

/-- `saveTempFile`: write data to a temporary file and return the path. -/
def saveTempFile (env : OutboundEnv) (_data : List Nat) (h : Host) :
    Host × Except String String :=
  let h := h.call (.createTemp "mautrix-zalo-*")
  match env.createTemp with
  | some err => (h, .error ("create temp file: " ++ err))
  | none =>
    let tmp := tempName env
    let h := { h with files := tmp :: h.files }
    let h := h.call (.writeFile tmp)
    match env.write with
    | some err =>
      let h := h.call (.closeFile tmp)
      let h := osRemove env tmp h
      (h, .error ("write temp file: " ++ err))
    | none =>
      let h := h.call (.closeFile tmp)
      (h, .ok tmp)

/-- `cleanupTempFile`: remove a temporary file. -/
def cleanupTempFile (env : OutboundEnv) (path : String) (h : Host) : Host :=
  if path ≠ "" then osRemove env path h else h

/-- `downloadFromMatrix`: download media through the intent. -/
def downloadFromMatrix (env : OutboundEnv) (mxcURI : String) (h : Host) :
    Host × Except String (List Nat) :=
  let h := h.call (.downloadMedia mxcURI)
  match env.downloadMedia with
  | .error err => (h, .error ("download from matrix: " ++ err))
  | .ok data => (h, .ok data)

/-- `handleMatrixText`; the quote is always nil. -/
def handleMatrixText (env : OutboundEnv) (msg : MatrixMessage) (threadID : String)
    (threadType : Int) (h : Host) : Host × Except String MatrixMessageResponse :=
  let quote : Option String := none
  let h := h.call (.sendText msg.Body threadID threadType quote)
  match env.sendText with
  | .error err => (h, .error err)
  | .ok resp => (h, .ok { ID := resp.MessageID })

/-- `handleMatrixImage`; the deferred `cleanupTempFile` runs on every return
after the temporary file was saved. -/
def handleMatrixImage (env : OutboundEnv) (msg : MatrixMessage) (threadID : String)
    (threadType : Int) (h : Host) : Host × Except String MatrixMessageResponse :=
  match downloadFromMatrix env msg.URL h with
  | (h, .error err) => (h, .error ("download from matrix: " ++ err))
  | (h, .ok data) =>
    match saveTempFile env data h with
    | (h, .error err) => (h, .error ("save temp file: " ++ err))
    | (h, .ok tmpFile) =>
      let h := h.call (.sendImage tmpFile threadID threadType)
      match env.sendImage with
      | .error err => (cleanupTempFile env tmpFile h, .error err)
      | .ok resp => (cleanupTempFile env tmpFile h, .ok { ID := resp.MessageID })

/-- `HandleMatrixMessage`: route a Matrix message to Zalo by its type. -/
def HandleMatrixMessage (env : OutboundEnv) (msg : MatrixMessage) (h : Host) :
    Host × Except String MatrixMessageResponse :=
  let threadID := (ParsePortalKey msg.PortalKey).1
  let threadType := (ParsePortalKey msg.PortalKey).2
  if msg.MsgType = MsgText ∨ msg.MsgType = MsgNotice ∨ msg.MsgType = MsgEmote then
    handleMatrixText env msg threadID threadType h
  else if msg.MsgType = MsgImage then
    handleMatrixImage env msg threadID threadType h
  else (h, .error ("unsupported message type: " ++ msg.MsgType))

/-- A gateway and a host on which every step of an outbound send succeeds. -/
def allGood : OutboundEnv :=
  { downloadMedia := .ok [137, 80, 78, 71],
    tempDir := "/tmp",
    random := "1234",
    createTemp := none,
    write := none,
    remove := none,
    sendText := .ok { MessageID := "m7" },
    sendImage := .ok { MessageID := "m8" } }

/-- As `allGood`, but the gateway rejects the image. -/
def sendImageFails : OutboundEnv :=
  { allGood with sendImage := .error "sidecar error (E500): upload failed" }

/-- As `allGood`, but writing the temporary file fails. -/
def writeFails : OutboundEnv :=
  { allGood with write := some "no space left on device" }

/-- As `sendImageFails`, and in addition the operating system refuses to remove
the temporary file. -/
def removeFails : OutboundEnv :=
  { sendImageFails with remove := some "operation not permitted" }

/-- A host with no call made and one unrelated file. -/
def quietHost : Host := { calls := [], files := ["/tmp/other"] }

/-- An outbound message of the given type to the direct thread `2468`. -/
def outboundOf (msgType : String) : MatrixMessage :=
  { MsgType := msgType, Body := "hello", URL := "mxc://example.org/abc",
    PortalKey := { ID := "2468:0", Receiver := "" } }

/-! ## Conversion of inbound messages (handle_remote.go) -/

/-- The framework type `event.FileInfo`, as far as the package fills it. -/
structure FileInfo where
  MimeType : String
  Width : Int
  Height : Int
  Size : Int
  deriving DecidableEq, Repr

/-- The framework type `event.MessageEventContent`, as far as the package
fills it; `Info` is the pointer field, `none` when nil. -/
structure MessageEventContent where
  MsgType : String
  Body : String
  URL : String
  Info : Option FileInfo
  deriving DecidableEq, Repr

/-- The framework event types the package uses: `event.EventMessage` and
`event.EventSticker`. -/
inductive EventKind where
  | EventMessage
  | EventSticker
  deriving DecidableEq, Repr

/-- The framework type `bridgev2.ConvertedMessagePart`; `Kind` is its field
`Type`. -/
structure ConvertedMessagePart where
  Kind : EventKind
  Content : MessageEventContent
  deriving DecidableEq, Repr

/-- The framework type `bridgev2.ConvertedMessage`. -/
structure ConvertedMessage where
  Parts : List ConvertedMessagePart
  deriving DecidableEq, Repr

/-- What `http.DefaultClient.Do` hands back for a download: the status code
and the outcome of `io.ReadAll(resp.Body)`, in bytes. -/
structure DownloadResponse where
  StatusCode : Int
  Body : Except String (List Nat)

/-- What a conversion meets: for an address, the error of
`http.NewRequestWithContext` if any and the result of `http.DefaultClient.Do`;
the result of `intent.UploadMedia` for data, file name and content type; and
`http.DetectContentType`. -/
structure MediaEnv where
  newRequest : String → Option String
  roundTrip : String → Except String DownloadResponse
  upload : List Nat → String → String → Except String String
  detect : List Nat → String

/-- `downloadFromURL`: download a file from an address to bytes. -/
def downloadFromURL (env : MediaEnv) (url : String) : Except String (List Nat) :=
  match env.newRequest url with
  | some err => .error ("create download request: " ++ err)
  | none =>
    match env.roundTrip url with
    | .error err => .error ("download file: " ++ err)
    | .ok resp =>
      if resp.StatusCode ≠ 200 then
        .error ("download failed with status " ++ formatInt resp.StatusCode)
      else
        match resp.Body with
        | .error err => .error ("read download body: " ++ err)
        | .ok data => .ok data

/-- `uploadToMatrix`: upload data to the Matrix media repository. -/
def uploadToMatrix (env : MediaEnv) (data : List Nat) (filename mimetype : String) :
    Except String String :=
  match env.upload data filename mimetype with
  | .error err => .error ("upload to matrix: " ++ err)
  | .ok uri => .ok uri

/-- `detectMIME`. -/
def detectMIME (env : MediaEnv) (data : List Nat) : String := env.detect data

/-- `convertTextMessage`. -/
def convertTextMessage (data : SidecarMessageData) : Except String ConvertedMessage :=
  .ok { Parts := [{ Kind := .EventMessage,
                    Content := { MsgType := MsgText, Body := data.Content, URL := "",
                                 Info := none } }] }

/-- `convertImageMessage`. -/
def convertImageMessage (env : MediaEnv) (data : SidecarMessageData) :
    Except String ConvertedMessage :=
  if data.MediaURL = "" then convertTextMessage data
  else
    match downloadFromURL env data.MediaURL with
    | .error err => .error err
    | .ok imgData =>
      match uploadToMatrix env imgData "image" (detectMIME env imgData) with
      | .error err => .error err
      | .ok mxcURI =>
        .ok { Parts := [{ Kind := .EventMessage,
                          Content := { MsgType := MsgImage, Body := "image", URL := mxcURI,
                                       Info := some { MimeType := detectMIME env imgData,
                                                      Width := data.Width,
                                                      Height := data.Height,
                                                      Size := imgData.length } } }] }

/-- `convertStickerMessage`. -/
def convertStickerMessage (env : MediaEnv) (data : SidecarMessageData) :
    Except String ConvertedMessage :=
  if data.MediaURL = "" then convertTextMessage data
  else
    match downloadFromURL env data.MediaURL with
    | .error err => .error err
    | .ok stickerData =>
      match uploadToMatrix env stickerData "sticker.png" "image/png" with
      | .error err => .error err
      | .ok mxcURI =>
        .ok { Parts := [{ Kind := .EventSticker,
                          Content := { MsgType := MsgImage, Body := "sticker", URL := mxcURI,
                                       Info := none } }] }

/-- `ZaloRemoteMessage.ConvertMessage`. -/
def ConvertMessage (env : MediaEnv) (data : SidecarMessageData) :
    Except String ConvertedMessage :=
  if data.MsgType = "image" ∨ data.MsgType = "gif" then convertImageMessage env data
  else if data.MsgType = "sticker" then convertStickerMessage env data
  else convertTextMessage data

/-- The converted message carries the content reference `uri` together with
a content type and the width and height of the payload: its one part has the
reference as `URL` and an `Info` with a non-empty `MimeType` and with that
`Width` and `Height`. -/
def carriesMedia (m : ConvertedMessage) (uri : String) (data : SidecarMessageData) : Prop :=
  ∃ part, m.Parts = [part] ∧ part.Content.URL = uri ∧
    ∃ info, part.Content.Info = some info ∧ info.MimeType ≠ "" ∧
      info.Width = data.Width ∧ info.Height = data.Height

/-- A content store that accepts every upload and a source that serves four
bytes for every address; the content type detected is `image/jpeg`. -/
def mediaOk : MediaEnv :=
  { newRequest := fun _ => none,
    roundTrip := fun _ => .ok { StatusCode := 200, Body := .ok [255, 216, 255, 224] },
    upload := fun _ _ _ => .ok "mxc://example.org/xyz",
    detect := fun _ => "image/jpeg" }

/-- An inbound payload of the given type with a media address and the declared
size 128 x 96. -/
def mediaMessage (msgType : String) : SidecarMessageData :=
  { MsgID := "m9", Content := "", ThreadID := "2468", ThreadType := 0, SenderID := "u2",
    IsSelf := false, Timestamp := 1700000000000, Quote := "", MsgType := msgType,
    MediaURL := "https://cdn.example.org/s.png", Thumb := "", Width := 128, Height := 96 }

/-- The wait before the attempt that follows `count` failed attempts, when the
first wait is `backoff`. -/
def backoffAfter : Nat → Duration → Duration
  | 0, backoff => backoff
  | count + 1, backoff =>
    backoffAfter count (min (wrapInt64 (backoff * 2)) (wrapInt64 (30 * Second)))

/-- A network on which nothing is cancelled and every redial succeeds with
handle 2. -/
def redialOk : ReconnectEnv :=
  { cancelled := fun _ => false, dial := fun _ => .ok 2 }

/-- A sidecar that restores the session and accepts the dial with handle 2. -/
def goodConnectAgain : ConnectEnv :=
  { loginCookie := .ok { UserID := "u1", Cookie := "c", IMEI := "i", UserAgent := "ua" },
    dial := .ok 2 }

/-- A network on which the first two redials fail and the third succeeds with
handle 2; nothing is cancelled. -/
def thirdRedialOk : ReconnectEnv :=
  { cancelled := fun _ => false,
    dial := fun i => if i < 2 then .error "connection refused" else .ok 2 }

/-- A network on which every redial fails and the lifetime is cancelled during
the third wait. -/
def cancelledInThirdWait : ReconnectEnv :=
  { cancelled := fun i => decide (2 ≤ i), dial := fun _ => .error "connection refused" }

/-! ## GetChatInfo (client.go) -/

/-- `SidecarUserInfoResponse`. -/
structure SidecarUserInfoResponse where
  ID : String
  DisplayName : String
  AvatarURL : String
  deriving DecidableEq, Repr

/-- `SidecarGroupMember`. -/
structure SidecarGroupMember where
  UserID : String
  DisplayName : String
  deriving DecidableEq, Repr

/-- `SidecarGroupInfoResponse`. -/
structure SidecarGroupInfoResponse where
  ID : String
  Name : String
  Avatar : String
  Members : List SidecarGroupMember
  deriving DecidableEq, Repr

/-- The framework constants `database.RoomType...`. -/
inductive RoomType where
  | RoomTypeDefault
  | RoomTypeDM
  | RoomTypeGroupDM
  | RoomTypeSpace
  deriving DecidableEq, Repr

/-- The framework type `bridgev2.ChatMember`, as far as the package fills it. -/
structure ChatMember where
  Sender : String
  Membership : String
  Nickname : Option String
  deriving DecidableEq, Repr

/-- The framework type `bridgev2.ChatInfo`, as far as the package fills it;
the member map is a list of entries with distinct keys. -/
structure ChatInfo where
  Name : String
  IsFull : Bool
  MemberMap : List (String × ChatMember)
  OtherUserID : String
  RoomKind : RoomType
  deriving DecidableEq, Repr

/-- Assignment `m[key] = value` of a Go map. -/
def mapSet (m : List (String × ChatMember)) (key : String) (value : ChatMember) :
    List (String × ChatMember) :=
  m.filter (fun e => e.1 ≠ key) ++ [(key, value)]

/-- What `GetChatInfo` meets: the results of the gateway lookups. -/
structure ChatInfoEnv where
  getGroupInfo : String → Except String SidecarGroupInfoResponse
  getUserInfo : String → Except String SidecarUserInfoResponse

/-- `ZaloClient.GetChatInfo`, on the portal key of the portal; `RoomKind` is
the field `Type` of the result. -/
def GetChatInfo (env : ChatInfoEnv) (key : PortalKey) (h : Host) :
    Host × Except String ChatInfo :=
  let threadID := (ParsePortalKey key).1
  let threadType := (ParsePortalKey key).2
  if threadType = ThreadTypeGroup then
    let h := h.call (.getGroupInfo threadID)
    match env.getGroupInfo threadID with
    | .error err => (h, .error err)
    | .ok group =>
      let memberMap := group.Members.foldl
        (fun m x =>
          mapSet m x.UserID
            { Sender := x.UserID, Membership := "join", Nickname := some x.DisplayName })
        []
      (h, .ok { Name := group.Name, IsFull := true, MemberMap := memberMap,
                OtherUserID := "", RoomKind := .RoomTypeDefault })
  else
    let h := h.call (.getUserInfo threadID)
    match env.getUserInfo threadID with
    | .error err => (h, .error err)
    | .ok user =>
      (h, .ok { Name := user.DisplayName, IsFull := true,
                MemberMap := [(user.ID, { Sender := user.ID, Membership := "join",
                                          Nickname := none })],
                OtherUserID := user.ID, RoomKind := .RoomTypeDM })

/-- A gateway that knows every id as a user named `Lan` and as a group named
`Family` with that user as its one member. -/
def directory : ChatInfoEnv :=
  { getGroupInfo := fun gid =>
      .ok { ID := gid, Name := "Family", Avatar := "",
            Members := [{ UserID := "u2", DisplayName := "Lan" }] },
    getUserInfo := fun uid => .ok { ID := uid, DisplayName := "Lan", AvatarURL := "" } }

end Connector

namespace Connector

/-! ## Decimal text and splitting -/

theorem isDigit_digitChar (d : Nat) (h : d < 10) : isDigit (digitChar d) = true := by
  interval_cases d <;> decide

theorem digitVal_digitChar (d : Nat) (h : d < 10) : digitVal (digitChar d) = d := by
  interval_cases d <;> decide

theorem parseDigits_snoc (xs : List Char) (c : Char) (acc : Nat) :
    parseDigits (xs ++ [c]) acc =
      (parseDigits xs acc).bind
        (fun v => if isDigit c then some (v * 10 + digitVal c) else none) := by
  induction xs generalizing acc with
  | nil => simp [parseDigits]
  | cons x xs ih =>
    by_cases hx : isDigit x = true
    · simp [parseDigits, hx, ih]
    · simp [parseDigits, hx]

theorem parseDigits_decDigits (fuel n : Nat) (h : n < fuel) :
    parseDigits (decDigits fuel n) 0 = some n := by
  induction fuel generalizing n with
  | zero => omega
  | succ fuel ih =>
    by_cases hn : n < 10
    · simp [decDigits, hn, parseDigits, isDigit_digitChar n hn, digitVal_digitChar n hn]
    · have hlt : n / 10 < fuel := by omega
      have hm : n % 10 < 10 := Nat.mod_lt _ (by decide)
      simp only [decDigits, hn, if_false, parseDigits_snoc, ih _ hlt, Option.some_bind,
        isDigit_digitChar _ hm, digitVal_digitChar _ hm, if_true]
      congr 1
      omega

theorem decDigits_isDigit (fuel n : Nat) : ∀ c ∈ decDigits fuel n, isDigit c = true := by
  induction fuel generalizing n with
  | zero => simp [decDigits]
  | succ fuel ih =>
    intro c hc
    by_cases hn : n < 10
    · simp only [decDigits, hn, if_true, List.mem_singleton] at hc
      subst hc
      exact isDigit_digitChar n hn
    · simp only [decDigits, hn, if_false, List.mem_append, List.mem_singleton] at hc
      rcases hc with hc | hc
      · exact ih _ c hc
      · subst hc
        exact isDigit_digitChar _ (Nat.mod_lt _ (by decide))

theorem decDigits_ne_nil (fuel n : Nat) : decDigits (fuel + 1) n ≠ [] := by
  by_cases hn : n < 10 <;> simp [decDigits, hn]

theorem Atoi_formatInt (t : Int) (hlo : -(2 ^ 63 : Int) ≤ t) (hhi : t < 2 ^ 63) :
    Atoi (formatInt t) = some t := by
  have hparse := parseDigits_decDigits (t.natAbs + 1) t.natAbs (Nat.lt_succ_self _)
  have hne := decDigits_ne_nil t.natAbs t.natAbs
  by_cases hneg : t < 0
  · have hle : t.natAbs ≤ 9223372036854775808 := by omega
    cases hd : decDigits (t.natAbs + 1) t.natAbs with
    | nil => exact absurd hd hne
    | cons c rest =>
      rw [hd] at hparse
      simp [Atoi, formatInt, hneg, hd, hparse, hle, abs_of_neg hneg]
  · have hlt : t.natAbs < 9223372036854775808 := by omega
    have hval : ((t.natAbs : Nat) : Int) = t := by omega
    cases hd : decDigits (t.natAbs + 1) t.natAbs with
    | nil => exact absurd hd hne
    | cons c rest =>
      have hc : isDigit c = true :=
        decDigits_isDigit _ _ c (by rw [hd]; exact List.mem_cons_self _ _)
      have h1 : c ≠ '-' := by
        intro h
        rw [h] at hc
        exact absurd hc (by decide)
      have h2 : c ≠ '+' := by
        intro h
        rw [h] at hc
        exact absurd hc (by decide)
      rw [hd] at hparse
      simp [Atoi, formatInt, hneg, hd, h1, h2, hparse, hlt, hval]

theorem cutFirst_none (sep : Char) (s : List Char) (h : sep ∉ s) : cutFirst sep s = none := by
  induction s with
  | nil => rfl
  | cons c cs ih =>
    have hc : c ≠ sep := fun e => h (by simp [e])
    have hcs : sep ∉ cs := fun e => h (List.mem_cons_of_mem _ e)
    simp [cutFirst, hc, ih hcs]

theorem cutFirst_append (sep : Char) (a b : List Char) (h : sep ∉ a) :
    cutFirst sep (a ++ sep :: b) = some (a, b) := by
  induction a with
  | nil => simp [cutFirst]
  | cons c cs ih =>
    have hc : c ≠ sep := fun e => h (by simp [e])
    have hcs : sep ∉ cs := fun e => h (List.mem_cons_of_mem _ e)
    simp [cutFirst, hc, ih hcs]

theorem cutFirst_some (sep : Char) (s a b : List Char) (h : cutFirst sep s = some (a, b)) :
    s = a ++ sep :: b ∧ sep ∉ a := by
  induction s generalizing a with
  | nil => simp [cutFirst] at h
  | cons c cs ih =>
    by_cases hc : c = sep
    · simp [cutFirst, hc] at h
      obtain ⟨rfl, rfl⟩ := h
      simp [hc]
    · simp only [cutFirst, hc, if_false] at h
      cases hcut : cutFirst sep cs with
      | none => simp [hcut] at h
      | some p =>
        obtain ⟨a1, b1⟩ := p
        simp only [hcut, Option.some.injEq, Prod.mk.injEq] at h
        obtain ⟨rfl, rfl⟩ := h
        obtain ⟨h1, h2⟩ := ih a1 hcut
        refine ⟨by simp [h1], ?_⟩
        intro hmem
        rcases List.mem_cons.mp hmem with e | e
        · exact hc e.symm
        · exact h2 e

theorem SplitN2_append (a b : String) (h : ':' ∉ a.data) :
    SplitN2 (a ++ ":" ++ b) = [a, b] := by
  have hd : (a ++ ":" ++ b).data = a.data ++ ':' :: b.data := by
    simp [String.data_append]
  simp [SplitN2, hd, cutFirst_append ':' a.data b.data h]

theorem SplitN2_noSep (s : String) (h : ':' ∉ s.data) : SplitN2 s = [s] := by
  simp [SplitN2, cutFirst_none ':' s.data h]

theorem parseDigits_eq_none (xs : List Char) (acc : Nat) (h : xs.all isDigit = false) :
    parseDigits xs acc = none := by
  induction xs generalizing acc with
  | nil => simp at h
  | cons x xs ih =>
    by_cases hx : isDigit x = true
    · have hxs : xs.all isDigit = false := by
        simpa [List.all_cons, hx] using h
      simp [parseDigits, hx, ih _ hxs]
    · simp [parseDigits, hx]

theorem Atoi_eq_none_of_not_decimal (s : String) (h : isDecimalInt s = false) :
    Atoi s = none := by
  unfold isDecimalInt at h
  unfold Atoi
  cases hd : s.data with
  | nil => rfl
  | cons c rest =>
    rw [hd] at h
    simp only at h ⊢
    generalize (if (c == '-' || c == '+') = true then rest else c :: rest) = body at h ⊢
    simp only [Bool.and_eq_false_iff, Bool.not_eq_false_eq_eq_true] at h
    rcases h with h | h
    · simp [h]
    · simp [parseDigits_eq_none _ 0 h]

theorem ParsePortalKey_of_cut (key : PortalKey) (before after : String)
    (hid : key.ID = before ++ ":" ++ after) (hsep : ':' ∉ before.data) :
    ParsePortalKey key =
      match Atoi after with
      | none => (before, ThreadTypeUser)
      | some t => (before, t) := by
  simp only [ParsePortalKey, hid, SplitN2_append before after hsep]

theorem ParsePortalKey_MakePortalKey_of_range (threadID : String) (threadType : Int)
    (hsep : ':' ∉ threadID.data) (hlo : -(2 ^ 63 : Int) ≤ threadType)
    (hhi : threadType < 2 ^ 63) :
    ParsePortalKey (MakePortalKey threadID threadType) = (threadID, threadType) := by
  rw [ParsePortalKey_of_cut (MakePortalKey threadID threadType) threadID (formatInt threadType)
    rfl hsep, Atoi_formatInt threadType hlo hhi]

/-! ## Portal key codec (types.go) -/

/-- C1, as stated, fails: a thread id that itself contains `':'` is cut at its
own first colon, so the pair that went in does not come back. -/
theorem C1_roundtrip_fails_on_colon_id :
    ParsePortalKey (MakePortalKey "a:b" ThreadTypeGroup) = ("a", ThreadTypeUser) ∧
    ParsePortalKey (MakePortalKey "a:b" ThreadTypeGroup) ≠ ("a:b", ThreadTypeGroup) := by
  decide

/-- C1, amended: for every thread id that contains no `':'` and every thread
kind (0 = direct, 1 = group), decoding the encoded key gives back exactly the
thread id and the kind. -/
theorem C1_parse_make_roundtrip (threadID : String) (threadType : Int)
    (hsep : ':' ∉ threadID.data)
    (hkind : threadType = ThreadTypeUser ∨ threadType = ThreadTypeGroup) :
    ParsePortalKey (MakePortalKey threadID threadType) = (threadID, threadType) := by
  apply ParsePortalKey_MakePortalKey_of_range threadID threadType hsep
  · rcases hkind with h | h <;> rw [h] <;> decide
  · rcases hkind with h | h <;> rw [h] <;> decide

/-- The amended C1 at the thread id `"2468"` of a group. -/
theorem C1_parse_make_roundtrip_witness :
    ':' ∉ ("2468" : String).data ∧
    ParsePortalKey (MakePortalKey "2468" 1) = ("2468", 1) :=
  ⟨by decide, C1_parse_make_roundtrip "2468" 1 (by decide) (Or.inr rfl)⟩

/-- C2, as stated, fails: the key `"a:b:1"` is the encoding of thread id `"a:b"`
with kind 1 (group), yet encoding what it decodes to gives `"a:0"`. -/
theorem C2_roundtrip_fails_on_colon_id :
    (⟨"a:b:1", ""⟩ : PortalKey) = MakePortalKey "a:b" ThreadTypeGroup ∧
    MakePortalKey (ParsePortalKey ⟨"a:b:1", ""⟩).1 (ParsePortalKey ⟨"a:b:1", ""⟩).2
      = ⟨"a:0", ""⟩ ∧
    MakePortalKey (ParsePortalKey ⟨"a:b:1", ""⟩).1 (ParsePortalKey ⟨"a:b:1", ""⟩).2
      ≠ ⟨"a:b:1", ""⟩ := by
  decide

/-- C2, amended: for every portal key with an empty receiver whose id is
`"<thread-id>:<thread-kind>"`, where the thread id contains no `':'` and the
thread kind is written `0` or `1`, encoding the decoded pair gives the key back. -/
theorem C2_make_parse_roundtrip (key : PortalKey) (threadID kind : String)
    (hid : key.ID = threadID ++ ":" ++ kind) (hsep : ':' ∉ threadID.data)
    (hkind : kind = "0" ∨ kind = "1") (hrecv : key.Receiver = "") :
    MakePortalKey (ParsePortalKey key).1 (ParsePortalKey key).2 = key := by
  obtain ⟨id, recv⟩ := key
  simp only at hid hrecv
  subst hid hrecv
  rw [ParsePortalKey_of_cut _ threadID kind rfl hsep]
  rcases hkind with h | h <;> subst h
  · have h0 : Atoi "0" = some 0 := by decide
    have f0 : formatInt 0 = "0" := by decide
    simp only [h0, MakePortalKey, f0]
  · have h1 : Atoi "1" = some 1 := by decide
    have f1 : formatInt 1 = "1" := by decide
    simp only [h1, MakePortalKey, f1]

/-- The amended C2 at the key `"2468:1"`. -/
theorem C2_make_parse_roundtrip_witness :
    MakePortalKey (ParsePortalKey ⟨"2468:1", ""⟩).1 (ParsePortalKey ⟨"2468:1", ""⟩).2
      = ⟨"2468:1", ""⟩ :=
  C2_make_parse_roundtrip ⟨"2468:1", ""⟩ "2468" "1" (by decide) (by decide) (Or.inr rfl) rfl

/-- C3: `ParsePortalKey` is a total function returning a pair (it has no error
result), and on a malformed key it falls back to the direct kind: an id
without `':'` decodes to the whole id with kind 0, and an id whose text after
the first `':'` is not a decimal integer decodes to the text before that `':'`
with kind 0. -/
theorem C3_parse_fallback :
    (∀ key : PortalKey, ':' ∉ key.ID.data →
      ParsePortalKey key = (key.ID, ThreadTypeUser)) ∧
    (∀ (key : PortalKey) (before after : String),
      key.ID = before ++ ":" ++ after → ':' ∉ before.data → isDecimalInt after = false →
      ParsePortalKey key = (before, ThreadTypeUser)) := by
  constructor
  · intro key h
    simp only [ParsePortalKey, SplitN2_noSep key.ID h]
  · intro key before after hid hsep hdec
    rw [ParsePortalKey_of_cut key before after hid hsep,
      Atoi_eq_none_of_not_decimal after hdec]

/-- C3 at the two keys of the specification: `"abc"` and `"abc:xyz"` both
decode to `("abc", direct)`. -/
theorem C3_parse_fallback_witness :
    ParsePortalKey ⟨"abc", ""⟩ = ("abc", 0) ∧
    (isDecimalInt "xyz" = false ∧ ParsePortalKey ⟨"abc:xyz", ""⟩ = ("abc", 0)) :=
  ⟨C3_parse_fallback.1 ⟨"abc", ""⟩ (by decide),
   by decide,
   C3_parse_fallback.2 ⟨"abc:xyz", ""⟩ "abc" "xyz" (by decide) (by decide) (by decide)⟩

/-! ## Inbound translation (handle_remote.go, handle_reaction.go) -/

/-- C4: for every message payload that decodes with `isSelf = true`,
`handleMessageEvent` leaves the session as it was; in particular nothing is
added to the event queue of the hosting framework, whatever the other fields
of the payload are. -/
theorem C4_self_message_not_queued (u : Unmarshal) (c : ZaloClient) (data : String)
    (msgData : SidecarMessageData) (hdec : u.message data = .ok msgData)
    (hself : msgData.IsSelf = true) :
    handleMessageEvent u c data = c ∧ (handleMessageEvent u c data).queue = c.queue := by
  have h : handleMessageEvent u c data = c := by
    simp [handleMessageEvent, hdec, hself]
  exact ⟨h, by rw [h]⟩

/-- C4 at a payload of the local user arriving at the connected session. -/
theorem C4_self_message_not_queued_witness :
    ownMessage.IsSelf = true ∧
    handleMessageEvent tableUnmarshal liveClient "own" = liveClient ∧
    (handleMessageEvent tableUnmarshal liveClient "own").queue = liveClient.queue :=
  ⟨rfl, C4_self_message_not_queued tableUnmarshal liveClient "own" ownMessage rfl rfl⟩

/-- C5: for every reaction payload that decodes, `handleReactionEvent` queues
exactly one event, built from that payload, and the type of this event is
Reaction-Remove if and only if the action is exactly `"remove"`; with every
other action, the empty one of a payload without action included, it is
Reaction-Add. -/
theorem C5_reaction_type (u : Unmarshal) (c : ZaloClient) (data : String)
    (reactionData : SidecarReactionData) (hdec : u.reaction data = .ok reactionData) :
    (handleReactionEvent u c data).queue = c.queue ++ [.ZaloRemoteReaction reactionData] ∧
    ((RemoteEvent.ZaloRemoteReaction reactionData).GetType = .RemoteEventReactionRemove ↔
      reactionData.Action = "remove") ∧
    ((RemoteEvent.ZaloRemoteReaction reactionData).GetType = .RemoteEventReaction ↔
      reactionData.Action ≠ "remove") := by
  refine ⟨?_, ?_, ?_⟩
  · simp [handleReactionEvent, hdec, ZaloClient.emit, ZaloClient.queue, List.filterMap_append]
  · by_cases h : reactionData.Action = "remove" <;> simp [RemoteEvent.GetType, h]
  · by_cases h : reactionData.Action = "remove" <;> simp [RemoteEvent.GetType, h]

/-- C5 at a payload without an action: one Reaction-Add event is queued. -/
theorem C5_reaction_type_witness :
    (handleReactionEvent tableUnmarshal liveClient "none").queue
      = liveClient.queue ++ [.ZaloRemoteReaction (reactionWith "")] ∧
    (RemoteEvent.ZaloRemoteReaction (reactionWith "")).GetType = .RemoteEventReaction :=
  ⟨(C5_reaction_type tableUnmarshal liveClient "none" (reactionWith "") rfl).1,
   (C5_reaction_type tableUnmarshal liveClient "none" (reactionWith "") rfl).2.2.mpr
     (by decide)⟩

/-! ## Gateway client (sidecar_http_client.go) -/

/-- C6: when the gateway answers with a status of 400 or more and the body
decodes as an error shape with a non-empty `error`, `doJSON` fails, and the
error it returns is `sidecar error (<code>): <error>`, made of exactly that
code and that message. -/
theorem C6_structured_error {α : Type} (x : Exchange α) (hasBody hasResult : Bool)
    (resp : HTTPResponse) (respBody : String) (errResp : SidecarErrorResponse)
    (hmarshal : hasBody = true → ∃ d, x.marshal = .ok d)
    (hreq : x.newRequest = .ok ()) (hresp : x.roundTrip = .ok resp)
    (hbody : resp.Body = .ok respBody) (hstatus : resp.StatusCode ≥ 400)
    (hdec : x.unmarshalError respBody = .ok errResp) (herr : errResp.Error ≠ "") :
    doJSON x hasBody hasResult
      = .error ("sidecar error (" ++ errResp.Code ++ "): " ++ errResp.Error) := by
  cases hasBody with
  | false => simp [doJSON, hreq, hresp, hbody, hstatus, hdec, herr]
  | true =>
    obtain ⟨d, hd⟩ := hmarshal rfl
    simp [doJSON, hd, hreq, hresp, hbody, hstatus, hdec, herr]

/-- C6 at status 404 with the body `{"error":"not found","code":"E404"}`: the
call fails with code `E404` and message `not found`. -/
theorem C6_structured_error_witness :
    doJSON (answer 404 "\x7b\"error\":\"not found\",\"code\":\"E404\"\x7d") false false
      = .error "sidecar error (E404): not found" :=
  C6_structured_error (answer 404 "\x7b\"error\":\"not found\",\"code\":\"E404\"\x7d")
    false false
    { StatusCode := 404, Body := .ok "\x7b\"error\":\"not found\",\"code\":\"E404\"\x7d" }
    "\x7b\"error\":\"not found\",\"code\":\"E404\"\x7d"
    { Error := "not found", Code := "E404" }
    (fun h => absurd h (by decide)) rfl rfl rfl (by decide) rfl (by decide)

/-- C7: when the gateway answers with a status of 400 or more and the body is
not a structured error (it does not decode, or it decodes with an empty
`error`), `doJSON` fails with the error `sidecar HTTP <status>: <body>`, which
contains the decimal status code and the body text unchanged. -/
theorem C7_unstructured_error {α : Type} (x : Exchange α) (hasBody hasResult : Bool)
    (resp : HTTPResponse) (respBody : String)
    (hmarshal : hasBody = true → ∃ d, x.marshal = .ok d)
    (hreq : x.newRequest = .ok ()) (hresp : x.roundTrip = .ok resp)
    (hbody : resp.Body = .ok respBody) (hstatus : resp.StatusCode ≥ 400)
    (hnot : ∀ errResp, x.unmarshalError respBody = .ok errResp → errResp.Error = "") :
    ∃ msg, doJSON x hasBody hasResult = .error msg ∧
      msg = "sidecar HTTP " ++ formatInt resp.StatusCode ++ ": " ++ respBody ∧
      Contains msg (formatInt resp.StatusCode) ∧ Contains msg respBody := by
  refine ⟨_, ?_, rfl, ?_, ?_⟩
  · have hcore : (match x.unmarshalError respBody with
        | .ok errResp =>
          if errResp.Error ≠ "" then
            (Except.error ("sidecar error (" ++ errResp.Code ++ "): " ++ errResp.Error) :
              Except String (Option α))
          else .error ("sidecar HTTP " ++ formatInt resp.StatusCode ++ ": " ++ respBody)
        | .error _ => .error ("sidecar HTTP " ++ formatInt resp.StatusCode ++ ": " ++ respBody))
        = .error ("sidecar HTTP " ++ formatInt resp.StatusCode ++ ": " ++ respBody) := by
      cases hu : x.unmarshalError respBody with
      | error e => rfl
      | ok errResp => simp [hnot errResp hu]
    cases hasBody with
    | false => simp only [doJSON, hreq, hresp, hbody, hstatus, if_true, hcore]; simp
    | true =>
      obtain ⟨d, hd⟩ := hmarshal rfl
      simp only [doJSON, hd, hreq, hresp, hbody, hstatus, if_true, hcore]
  · exact ⟨"sidecar HTTP ".data, (": " ++ respBody).data, by simp [String.data_append]⟩
  · exact ⟨("sidecar HTTP " ++ formatInt resp.StatusCode ++ ": ").data, [],
      by simp [String.data_append]⟩

/-- C7 at status 500 with the body `boom`. -/
theorem C7_unstructured_error_witness :
    ∃ msg, doJSON (answer 500 "boom") false false = .error msg ∧
      msg = "sidecar HTTP " ++ formatInt 500 ++ ": " ++ "boom" ∧
      Contains msg (formatInt 500) ∧ Contains msg "boom" :=
  C7_unstructured_error (answer 500 "boom") false false
    { StatusCode := 500, Body := .ok "boom" } "boom"
    (fun h => absurd h (by decide)) rfl rfl rfl (by decide)
    (fun errResp h => by simp [answer, notFoundDecoder] at h)

/-! ## Reconnect and connect (events.go, client.go) -/

theorem reconnectLoop_failed_step (env : ReconnectEnv) (ctx : Ctx) (remaining attempt : Nat)
    (backoff : Duration) (c : ZaloClient) (err : String)
    (hc : env.cancelled attempt = false) (hd : env.dial attempt = .error err) :
    reconnectLoop env ctx (remaining + 1) attempt backoff c =
      reconnectLoop env ctx remaining (attempt + 1)
        (min (wrapInt64 (backoff * 2)) (wrapInt64 (30 * Second)))
        ((c.emit (.wait backoff)).emit (.dial (wsURL c.baseURL))) := by
  simp [reconnectLoop, connectWS, hc, hd, ZaloClient.emit]

theorem reconnectLoop_all_failed (env : ReconnectEnv) (ctx : Ctx) (remaining attempt : Nat)
    (backoff : Duration) (c : ZaloClient)
    (h : ∀ i, attempt ≤ i → i < attempt + remaining →
      env.cancelled i = false ∧ ∃ err, env.dial i = .error err) :
    reconnectLoop env ctx remaining attempt backoff c =
      { c with
        loggedIn := false,
        effects := c.effects ++ failedAttempts (wsURL c.baseURL) remaining backoff } := by
  induction remaining generalizing attempt backoff c with
  | zero => simp [reconnectLoop, failedAttempts]
  | succ remaining ih =>
    obtain ⟨hc, err, hd⟩ := h attempt (Nat.le_refl _) (by omega)
    rw [reconnectLoop_failed_step env ctx remaining attempt backoff c err hc hd,
      ih (attempt + 1) _ _ (fun i h1 h2 => h i (by omega) (by omega))]
    simp [ZaloClient.emit, failedAttempts]

theorem failedAttempts_ten (url : String) :
    failedAttempts url 10 Second =
      (List.range 10).flatMap (fun i => [Effect.wait (specBackoff i), Effect.dial url]) := by
  simp [failedAttempts, specBackoff, Second, wrapInt64, List.range, List.range.loop,
    List.flatMap]

theorem reconnectLoop_keeps_live (env : ReconnectEnv) (ctx : Ctx) (remaining attempt : Nat)
    (backoff : Duration) (c : ZaloClient) (hlive : c.loggedIn = true)
    (hdead : (reconnectLoop env ctx remaining attempt backoff c).loggedIn = false) :
    ∀ i, attempt ≤ i → i < attempt + remaining →
      env.cancelled i = false ∧ ∃ err, env.dial i = .error err := by
  induction remaining generalizing attempt backoff c with
  | zero => intro i h1 h2; omega
  | succ remaining ih =>
    cases hc : env.cancelled attempt with
    | true =>
      simp [reconnectLoop, hc, hlive] at hdead
    | false =>
      cases hd : env.dial attempt with
      | ok conn =>
        simp [reconnectLoop, connectWS, hc, hd, ZaloClient.emit, hlive] at hdead
      | error err =>
        rw [reconnectLoop_failed_step env ctx remaining attempt backoff c err hc hd] at hdead
        have hrest := ih (attempt + 1) _ _ (by simpa [ZaloClient.emit] using hlive) hdead
        intro i h1 h2
        by_cases hi : i = attempt
        · subst hi
          exact ⟨hc, err, hd⟩
        · exact hrest i (by omega) (by omega)

theorem Connect_keeps_live (env : ConnectEnv) (c : ZaloClient) (hlive : c.loggedIn = true) :
    (Connect env c).loggedIn = true := by
  have hafter : ∀ c : ZaloClient, c.loggedIn = true →
      (connectAfterRestore env c).loggedIn = true := by
    intro c hc
    cases hd : env.dial <;> simp [connectAfterRestore, connectWS, hd, ZaloClient.emit, hc]
  unfold Connect
  split
  · cases hl : env.loginCookie with
    | error err => simpa [ZaloClient.emit] using hlive
    | ok r => exact hafter _ (by simpa [ZaloClient.emit] using hlive)
  · exact hafter c hlive

theorem handleSidecarEvent_loggedIn (u : Unmarshal) (c : ZaloClient) (evt : SidecarEvent) :
    (handleSidecarEvent u c evt).loggedIn = c.loggedIn := by
  unfold handleSidecarEvent handleMessageEvent handleReactionEvent handleUndoEvent
  repeat' split
  all_goals rfl

/-- C8: when none of the ten waits is cut short by a cancellation and every
redial fails, `handleWSReconnect` makes exactly ten dial attempts, the wait
before attempt `i` is `min(2^i, 30)` seconds, that is 1, 2, 4, 8, 16, 30, 30,
30, 30, 30 seconds, no read loop is started, and the session ends not-live. -/
theorem C8_backoff_schedule (env : ReconnectEnv) (ctx : Ctx) (c : ZaloClient)
    (h : env.exhausted) :
    (handleWSReconnect env ctx c).effects =
      c.effects ++
        (List.range 10).flatMap
          (fun i => [Effect.wait (specBackoff i), Effect.dial (wsURL c.baseURL)]) ∧
    (handleWSReconnect env ctx c).waits =
      c.waits ++ [1 * Second, 2 * Second, 4 * Second, 8 * Second, 16 * Second, 30 * Second,
        30 * Second, 30 * Second, 30 * Second, 30 * Second] ∧
    (handleWSReconnect env ctx c).dials = c.dials ++ List.replicate 10 (wsURL c.baseURL) ∧
    (handleWSReconnect env ctx c).readLoops = c.readLoops ∧
    (handleWSReconnect env ctx c).loggedIn = false := by
  have hrun := reconnectLoop_all_failed env ctx 10 0 Second c
    (fun i _ h2 => h i (by omega))
  have heff : (handleWSReconnect env ctx c).effects =
      c.effects ++ failedAttempts (wsURL c.baseURL) 10 Second := by
    simp [handleWSReconnect, hrun]
  refine ⟨?_, ?_, ?_, ?_, ?_⟩
  · rw [heff, failedAttempts_ten]
  · simp [ZaloClient.waits, heff, List.filterMap_append, failedAttempts, Second, wrapInt64]
  · simp [ZaloClient.dials, heff, List.filterMap_append, failedAttempts, List.replicate]
  · simp [ZaloClient.readLoops, heff, List.filterMap_append, failedAttempts]
  · simp [handleWSReconnect, hrun]

/-- C8 on the connected session when the network refuses every redial. -/
theorem C8_backoff_schedule_witness :
    (handleWSReconnect allFail 2 liveClient).waits =
      liveClient.waits ++ [1 * Second, 2 * Second, 4 * Second, 8 * Second, 16 * Second,
        30 * Second, 30 * Second, 30 * Second, 30 * Second, 30 * Second] ∧
    (handleWSReconnect allFail 2 liveClient).dials =
      liveClient.dials ++ List.replicate 10 (wsURL liveClient.baseURL) ∧
    (handleWSReconnect allFail 2 liveClient).loggedIn = false :=
  have h := C8_backoff_schedule allFail 2 liveClient (fun _ _ => ⟨rfl, _, rfl⟩)
  ⟨h.2.1, h.2.2.1, h.2.2.2.2⟩

theorem handleWSReconnect_exhausted_silent (env : ReconnectEnv) (ctx : Ctx) (c : ZaloClient)
    (h : env.exhausted) :
    (handleWSReconnect env ctx c).loggedIn = false ∧
    (handleWSReconnect env ctx c).bridgeStates = c.bridgeStates := by
  have hrun := reconnectLoop_all_failed env ctx 10 0 Second c
    (fun i _ h2 => h i (by omega))
  have hnone : ∀ (count : Nat) (backoff : Duration),
      (failedAttempts (wsURL c.baseURL) count backoff).filterMap
        (fun e => match e with | .bridgeState st => some st | _ => none) = [] := by
    intro count
    induction count with
    | zero => intro backoff; rfl
    | succ count ih => intro backoff; simp [failedAttempts, ih]
  constructor
  · simp [handleWSReconnect, hrun]
  · simp [handleWSReconnect, hrun, ZaloClient.bridgeStates, List.filterMap_append, hnone]

theorem live_flag_cleared_only_by_disconnect_or_exhaustion (op : Op) (c : ZaloClient)
    (hlive : c.loggedIn = true) (hdead : (op.run c).loggedIn = false) :
    op = .disconnect ∨ op = .logoutRemote ∨
      ∃ env ctx, op = .wsReconnect env ctx ∧ env.exhausted := by
  cases op with
  | connect env =>
    have := Connect_keeps_live env c hlive
    simp only [Op.run] at hdead
    rw [this] at hdead
    exact absurd hdead (by decide)
  | disconnect => exact Or.inl rfl
  | logoutRemote => exact Or.inr (Or.inl rfl)
  | sidecarEvent u evt =>
    simp only [Op.run, handleSidecarEvent_loggedIn, hlive] at hdead
    exact absurd hdead (by decide)
  | wsReconnect env ctx =>
    refine Or.inr (Or.inr ⟨env, ctx, rfl, ?_⟩)
    intro i hi
    exact reconnectLoop_keeps_live env ctx 10 0 Second c hlive hdead i (Nat.zero_le _)
      (by omega)

/-- C9 fails on the code. On the connected session, whose one bridge state so
far is "connected", all ten redials fail: `handleWSReconnect` makes its ten
dials and marks the session not-live, and sends nothing on the connection-state
channel. The states sent are still the single "connected" of `Connect`, so the
death of the session is not reported to the hosting framework. -/
theorem C9_exhaustion_sends_no_bridge_state :
    liveClient.loggedIn = true ∧
    liveClient.bridgeStates =
      [{ StateEvent := .StateConnected, Error := "", Message := "" }] ∧
    (handleWSReconnect allFail 2 liveClient).dials.length = liveClient.dials.length + 10 ∧
    IsLoggedIn (handleWSReconnect allFail 2 liveClient) = false ∧
    (handleWSReconnect allFail 2 liveClient).bridgeStates =
      [{ StateEvent := .StateConnected, Error := "", Message := "" }] := by
  decide

/-- C10: when the stored cookie is non-empty and the session restore fails,
`Connect` asks for the restore, sends the bad-credentials state and does
nothing else: no dial, no read loop, no other state (so no "connected"), and
the live flag, the connection handle and the cancel function are as before. -/
theorem C10_restore_failure_aborts (env : ConnectEnv) (c : ZaloClient)
    (hcookie : c.meta.Cookie ≠ "") (hfail : ∃ err, env.loginCookie = .error err) :
    (Connect env c).effects =
      c.effects ++
        [.loginCookie c.meta.Cookie c.meta.IMEI c.meta.UserAgent,
         .bridgeState
           { StateEvent := .StateBadCredentials,
             Error := "zalo-cookie-expired",
             Message := "Zalo session expired, please re-login" }] ∧
    (Connect env c).dials = c.dials ∧
    (Connect env c).readLoops = c.readLoops ∧
    (Connect env c).bridgeStates =
      c.bridgeStates ++
        [{ StateEvent := .StateBadCredentials,
           Error := "zalo-cookie-expired",
           Message := "Zalo session expired, please re-login" }] ∧
    (Connect env c).loggedIn = c.loggedIn ∧
    (Connect env c).wsConn = c.wsConn ∧
    (Connect env c).wsCancel = c.wsCancel := by
  obtain ⟨err, herr⟩ := hfail
  have hrun : Connect env c =
      (c.emit (.loginCookie c.meta.Cookie c.meta.IMEI c.meta.UserAgent)).emit
        (.bridgeState
          { StateEvent := .StateBadCredentials,
            Error := "zalo-cookie-expired",
            Message := "Zalo session expired, please re-login" }) := by
    simp [Connect, hcookie, herr, ZaloClient.emit]
  rw [hrun]
  simp [ZaloClient.emit, ZaloClient.dials, ZaloClient.readLoops, ZaloClient.bridgeStates,
    List.filterMap_append]

/-- C10 on the idle session when the sidecar rejects the stored cookie. -/
theorem C10_restore_failure_aborts_witness :
    idleClient.meta.Cookie ≠ "" ∧
    (Connect expiredCookie idleClient).dials = [] ∧
    (Connect expiredCookie idleClient).readLoops = [] ∧
    (Connect expiredCookie idleClient).loggedIn = false :=
  have h := C10_restore_failure_aborts expiredCookie idleClient (by decide) ⟨_, rfl⟩
  ⟨by decide, h.2.1, h.2.2.1, h.2.2.2.2.1⟩

/-! ## Disconnect (client.go) -/

theorem Disconnect_effects (c : ZaloClient) :
    (Disconnect c).effects =
      c.effects ++ (c.wsCancel.toList.map Effect.cancel ++ c.wsConn.toList.map Effect.close) := by
  cases hk : c.wsCancel <;> cases hw : c.wsConn <;>
    simp [Disconnect, ZaloClient.emit, hk, hw]

theorem Disconnect_fields (c : ZaloClient) :
    (Disconnect c).loggedIn = false ∧ (Disconnect c).wsConn = none ∧
    (Disconnect c).wsCancel = c.wsCancel ∧ (Disconnect c).meta = c.meta ∧
    (Disconnect c).baseURL = c.baseURL := by
  cases hk : c.wsCancel <;> cases hw : c.wsConn <;>
    simp [Disconnect, ZaloClient.emit, hk, hw]

/-- C11: from every session state `Disconnect` leaves the session not-live with
no WebSocket handle, and it closes the handle exactly when one was present. A
second `Disconnect` changes no field of the session, closes nothing, and
cancels nothing that was not cancelled already: the only call it makes is the
cancel function of the same lifetime once more. -/
theorem C11_disconnect_idempotent (c : ZaloClient) :
    ((Disconnect c).loggedIn = false ∧ (Disconnect c).wsConn = none ∧
      (Disconnect c).closes = c.closes ++ c.wsConn.toList) ∧
    ((Disconnect (Disconnect c)).loggedIn = (Disconnect c).loggedIn ∧
      (Disconnect (Disconnect c)).wsConn = (Disconnect c).wsConn ∧
      (Disconnect (Disconnect c)).wsCancel = (Disconnect c).wsCancel ∧
      (Disconnect (Disconnect c)).meta = (Disconnect c).meta ∧
      (Disconnect (Disconnect c)).baseURL = (Disconnect c).baseURL) ∧
    (Disconnect (Disconnect c)).closes = (Disconnect c).closes ∧
    (∀ ctx, ctx ∈ (Disconnect (Disconnect c)).cancels ↔ ctx ∈ (Disconnect c).cancels) ∧
    (Disconnect (Disconnect c)).effects =
      (Disconnect c).effects ++ c.wsCancel.toList.map Effect.cancel := by
  obtain ⟨h1, h2, h3, h4, h5⟩ := Disconnect_fields c
  obtain ⟨g1, g2, g3, g4, g5⟩ := Disconnect_fields (Disconnect c)
  have e1 := Disconnect_effects c
  have e2 := Disconnect_effects (Disconnect c)
  rw [h2, h3] at e2
  refine ⟨⟨h1, h2, ?_⟩, ⟨by rw [g1, h1], by rw [g2, h2], g3, g4, g5⟩, ?_, ?_, ?_⟩
  · cases hw : c.wsConn <;> cases hk : c.wsCancel <;>
      simp [ZaloClient.closes, e1, hw, hk, List.filterMap_append]
  · cases hw : c.wsConn <;> cases hk : c.wsCancel <;>
      simp [ZaloClient.closes, e2, e1, hw, hk, List.filterMap_append]
  · intro ctx
    cases hw : c.wsConn <;> cases hk : c.wsCancel <;>
      simp [ZaloClient.cancels, e2, e1, hw, hk, List.filterMap_append]
  · simpa using e2

/-! ## The read loop (events.go) -/

theorem handleSidecarEvent_wsConn (u : Unmarshal) (c : ZaloClient) (evt : SidecarEvent) :
    (handleSidecarEvent u c evt).wsConn = c.wsConn := by
  unfold handleSidecarEvent handleMessageEvent handleReactionEvent handleUndoEvent
  repeat' split
  all_goals rfl

theorem handleSidecarEvent_queue (u : Unmarshal) (c : ZaloClient) (evt : SidecarEvent) :
    (handleSidecarEvent u c evt).queue = c.queue ++ (translateEvent u evt).toList := by
  unfold handleSidecarEvent handleMessageEvent handleReactionEvent handleUndoEvent
    translateEvent
  repeat' split
  all_goals
    simp_all [ZaloClient.queue, ZaloClient.emit, List.filterMap_append]

theorem wsReadLoop_frame (u : Unmarshal) (decodeEvent : String → Except String SidecarEvent)
    (ctx : Ctx) (turn : ReadTurn) (turns : List ReadTurn) (msg : String) (c : ZaloClient)
    (hconn : c.wsConn ≠ none) (hturn : turn.delivers msg) :
    wsReadLoop u decodeEvent ctx (turn :: turns) c =
      wsReadLoop u decodeEvent ctx turns
        (match decodeEvent msg with
         | .error _ => c
         | .ok evt => handleSidecarEvent u c evt) := by
  obtain ⟨hdone, hmsg⟩ := hturn
  cases hw : c.wsConn with
  | none => exact absurd hw hconn
  | some conn =>
    cases he : decodeEvent msg <;> simp [wsReadLoop, hdone, hw, hmsg, he]

theorem wsReadLoop_queue (u : Unmarshal) (decodeEvent : String → Except String SidecarEvent)
    (ctx : Ctx) (turns : List ReadTurn) (frames : List String) (c : ZaloClient)
    (hconn : c.wsConn ≠ none)
    (hread : List.Forall₂ ReadTurn.delivers turns frames) :
    (wsReadLoop u decodeEvent ctx turns c).queue =
      c.queue ++ frames.filterMap (translateFrame u decodeEvent) := by
  induction hread generalizing c with
  | nil => simp [wsReadLoop]
  | @cons turn msg turns frames hd _ ih =>
    rw [wsReadLoop_frame u decodeEvent ctx turn turns msg c hconn hd]
    cases he : decodeEvent msg with
    | error err =>
      simp only []
      rw [ih c hconn]
      simp [List.filterMap_cons, translateFrame, he]
    | ok evt =>
      have hconn2 : (handleSidecarEvent u c evt).wsConn ≠ none := by
        rw [handleSidecarEvent_wsConn]
        exact hconn
      simp only []
      rw [ih _ hconn2, handleSidecarEvent_queue]
      cases ht : translateEvent u evt <;>
        simp [List.filterMap_cons, translateFrame, he, ht]

/-- C12: when the loop has a connection and every turn delivers a frame, the
events it queues are exactly the translations of the frames, in the order of
receipt. A frame whose envelope or payload does not decode, a frame of an
unknown kind, a `group_event` and a self-sent message translate to nothing, so
a malformed frame between two runs of frames stops nothing: the frames after
it are translated and queued after those before it. -/
theorem C12_read_loop_in_order (u : Unmarshal)
    (decodeEvent : String → Except String SidecarEvent) (ctx : Ctx) (c : ZaloClient)
    (hconn : c.wsConn ≠ none) :
    (∀ (turns : List ReadTurn) (frames : List String),
      List.Forall₂ ReadTurn.delivers turns frames →
      (wsReadLoop u decodeEvent ctx turns c).queue =
        c.queue ++ frames.filterMap (translateFrame u decodeEvent)) ∧
    (∀ (turns : List ReadTurn) (before after : List String) (bad : String),
      translateFrame u decodeEvent bad = none →
      List.Forall₂ ReadTurn.delivers turns (before ++ bad :: after) →
      (wsReadLoop u decodeEvent ctx turns c).queue =
        c.queue ++ before.filterMap (translateFrame u decodeEvent) ++
          after.filterMap (translateFrame u decodeEvent)) ∧
    (∀ msg : String,
      ((∃ err, decodeEvent msg = .error err) → translateFrame u decodeEvent msg = none) ∧
      (∀ evt, decodeEvent msg = .ok evt →
        (evt.EventType = "group_event" → translateFrame u decodeEvent msg = none) ∧
        (evt.EventType ≠ "message" → evt.EventType ≠ "reaction" → evt.EventType ≠ "undo" →
          translateFrame u decodeEvent msg = none) ∧
        (evt.EventType = "message" → (∃ err, u.message evt.Data = .error err) →
          translateFrame u decodeEvent msg = none) ∧
        (evt.EventType = "reaction" → (∃ err, u.reaction evt.Data = .error err) →
          translateFrame u decodeEvent msg = none) ∧
        (evt.EventType = "undo" → (∃ err, u.undo evt.Data = .error err) →
          translateFrame u decodeEvent msg = none) ∧
        (evt.EventType = "message" → ∀ d, u.message evt.Data = .ok d → d.IsSelf = true →
          translateFrame u decodeEvent msg = none))) := by
  refine ⟨?_, ?_, ?_⟩
  · intro turns frames hread
    exact wsReadLoop_queue u decodeEvent ctx turns frames c hconn hread
  · intro turns before after bad hbad hread
    rw [wsReadLoop_queue u decodeEvent ctx turns _ c hconn hread]
    simp [List.filterMap_append, List.filterMap_cons, hbad]
  · intro msg
    refine ⟨?_, ?_⟩
    · rintro ⟨err, he⟩
      simp [translateFrame, he]
    · intro evt he
      refine ⟨?_, ?_, ?_, ?_, ?_, ?_⟩
      · intro hk
        simp [translateFrame, he, translateEvent, hk]
      · intro h1 h2 h3
        simp [translateFrame, he, translateEvent, h1, h2, h3]
      · rintro hk ⟨err, hd⟩
        simp [translateFrame, he, translateEvent, hk, hd]
      · rintro hk ⟨err, hd⟩
        simp [translateFrame, he, translateEvent, hk, hd]
      · rintro hk ⟨err, hd⟩
        simp [translateFrame, he, translateEvent, hk, hd]
      · intro hk d hd hself
        simp [translateFrame, he, translateEvent, hk, hd, hself]

/-- C12 on the connected session: a self-sent message, a frame that is not an
envelope and a reaction arrive in this order; the reaction alone is queued. -/
theorem C12_read_loop_in_order_witness :
    (wsReadLoop tableUnmarshal tableDecodeEvent 2
        [frameTurn "message|own", frameTurn "garbage", frameTurn "reaction|remove"]
        liveClient).queue =
      liveClient.queue ++ [.ZaloRemoteReaction (reactionWith "remove")] :=
  ((C12_read_loop_in_order tableUnmarshal tableDecodeEvent 2 liveClient (by decide)).1
    [frameTurn "message|own", frameTurn "garbage", frameTurn "reaction|remove"]
    ["message|own", "garbage", "reaction|remove"]
    (.cons ⟨rfl, rfl⟩ (.cons ⟨rfl, rfl⟩ (.cons ⟨rfl, rfl⟩ .nil)))).trans (by decide)

/-! ## Outbound messages (handle_matrix.go, media.go) -/

theorem tempName_ne_empty (env : OutboundEnv) : tempName env ≠ "" := by
  intro h
  have hlen := congrArg String.length h
  simp [tempName, String.length_append] at hlen
  exact absurd hlen.1.2 (by decide)

theorem saveTempFile_created (env : OutboundEnv) (data : List Nat) (h : Host)
    (hcreate : env.createTemp = none) (hwrite : env.write = none) :
    saveTempFile env data h =
      ({ calls := h.calls ++ [.createTemp "mautrix-zalo-*", .writeFile (tempName env),
            .closeFile (tempName env)],
         files := tempName env :: h.files }, .ok (tempName env)) := by
  simp [saveTempFile, hcreate, hwrite, Host.call]

theorem saveTempFile_write_failed (env : OutboundEnv) (data : List Nat) (h : Host)
    (err : String) (hcreate : env.createTemp = none) (hwrite : env.write = some err) :
    saveTempFile env data h =
      ({ calls := h.calls ++ [.createTemp "mautrix-zalo-*", .writeFile (tempName env),
            .closeFile (tempName env), .removeFile (tempName env)],
         files := match env.remove with
           | none => h.files.filter (fun f => f ≠ tempName env)
           | some _ => tempName env :: h.files },
       .error ("write temp file: " ++ err)) := by
  cases hr : env.remove <;>
    simp [saveTempFile, hcreate, hwrite, Host.call, osRemove, hr, List.filter_cons]

theorem saveTempFile_create_failed (env : OutboundEnv) (data : List Nat) (h : Host)
    (err : String) (hcreate : env.createTemp = some err) :
    saveTempFile env data h =
      ({ h with calls := h.calls ++ [.createTemp "mautrix-zalo-*"] },
       .error ("create temp file: " ++ err)) := by
  simp [saveTempFile, hcreate, Host.call]

theorem handleMatrixImage_sent (env : OutboundEnv) (msg : MatrixMessage) (threadID : String)
    (threadType : Int) (h : Host) (data : List Nat)
    (hdown : env.downloadMedia = .ok data) (hcreate : env.createTemp = none)
    (hwrite : env.write = none) :
    (handleMatrixImage env msg threadID threadType h).1 =
      { calls := h.calls ++ [.downloadMedia msg.URL, .createTemp "mautrix-zalo-*",
          .writeFile (tempName env), .closeFile (tempName env),
          .sendImage (tempName env) threadID threadType, .removeFile (tempName env)],
        files := match env.remove with
          | none => h.files.filter (fun f => f ≠ tempName env)
          | some _ => tempName env :: h.files } := by
  have hne := tempName_ne_empty env
  have hsave := saveTempFile_created env data
    { calls := h.calls ++ [.downloadMedia msg.URL], files := h.files } hcreate hwrite
  cases hs : env.sendImage <;> cases hr : env.remove <;>
    simp [handleMatrixImage, downloadFromMatrix, hdown, hsave, hs, Host.call, cleanupTempFile,
      hne, osRemove, hr, List.filter_cons]

theorem handleMatrixImage_write_failed (env : OutboundEnv) (msg : MatrixMessage)
    (threadID : String) (threadType : Int) (h : Host) (data : List Nat) (err : String)
    (hdown : env.downloadMedia = .ok data) (hcreate : env.createTemp = none)
    (hwrite : env.write = some err) :
    (handleMatrixImage env msg threadID threadType h).1 =
      { calls := h.calls ++ [.downloadMedia msg.URL, .createTemp "mautrix-zalo-*",
          .writeFile (tempName env), .closeFile (tempName env), .removeFile (tempName env)],
        files := match env.remove with
          | none => h.files.filter (fun f => f ≠ tempName env)
          | some _ => tempName env :: h.files } := by
  have hsave := saveTempFile_write_failed env data
    { calls := h.calls ++ [.downloadMedia msg.URL], files := h.files } err hcreate hwrite
  simp [handleMatrixImage, downloadFromMatrix, hdown, hsave, Host.call]

/-- C13: with `(threadID, threadType)` decoded from the portal key of the
message, `HandleMatrixMessage` fails with `unsupported message type: <type>`
and makes no call at all when the type is not text, notice, emote or image; for
text, notice and emote its one call is send-text with the body, the decoded
thread id and kind, and no quote; for image it runs `handleMatrixImage`, whose
only gateway call is send-image with the temporary file and the decoded thread
id and kind, issued once the media has been downloaded and saved. -/
theorem C13_outbound_routing (env : OutboundEnv) (msg : MatrixMessage) (h : Host) :
    (msg.MsgType ≠ MsgText → msg.MsgType ≠ MsgNotice → msg.MsgType ≠ MsgEmote →
      msg.MsgType ≠ MsgImage →
      HandleMatrixMessage env msg h =
        (h, .error ("unsupported message type: " ++ msg.MsgType))) ∧
    (msg.MsgType = MsgText ∨ msg.MsgType = MsgNotice ∨ msg.MsgType = MsgEmote →
      (HandleMatrixMessage env msg h).1 =
        { h with calls := h.calls ++
            [.sendText msg.Body (ParsePortalKey msg.PortalKey).1
              (ParsePortalKey msg.PortalKey).2 none] }) ∧
    (msg.MsgType = MsgImage →
      HandleMatrixMessage env msg h =
        handleMatrixImage env msg (ParsePortalKey msg.PortalKey).1
          (ParsePortalKey msg.PortalKey).2 h ∧
      (∀ data, env.downloadMedia = .ok data → env.createTemp = none → env.write = none →
        (HandleMatrixMessage env msg h).1.gatewayCalls =
          h.gatewayCalls ++
            [.sendImage (tempName env) (ParsePortalKey msg.PortalKey).1
              (ParsePortalKey msg.PortalKey).2]) ∧
      ((HandleMatrixMessage env msg h).1.gatewayCalls = h.gatewayCalls ∨
        (HandleMatrixMessage env msg h).1.gatewayCalls =
          h.gatewayCalls ++
            [.sendImage (tempName env) (ParsePortalKey msg.PortalKey).1
              (ParsePortalKey msg.PortalKey).2])) := by
  refine ⟨?_, ?_, ?_⟩
  · intro h1 h2 h3 h4
    simp [HandleMatrixMessage, h1, h2, h3, h4]
  · intro ht
    cases hs : env.sendText <;> simp [HandleMatrixMessage, ht, handleMatrixText, hs, Host.call]
  · intro hi
    have hroute : HandleMatrixMessage env msg h =
        handleMatrixImage env msg (ParsePortalKey msg.PortalKey).1
          (ParsePortalKey msg.PortalKey).2 h := by
      have hnot : ¬ (MsgImage = MsgText ∨ MsgImage = MsgNotice ∨ MsgImage = MsgEmote) := by
        decide
      simp only [HandleMatrixMessage, hi, hnot, if_false, if_true]
    have hsent : ∀ data, env.downloadMedia = .ok data → env.createTemp = none →
        env.write = none →
        (HandleMatrixMessage env msg h).1.gatewayCalls =
          h.gatewayCalls ++
            [.sendImage (tempName env) (ParsePortalKey msg.PortalKey).1
              (ParsePortalKey msg.PortalKey).2] := by
      intro data hdown hcreate hwrite
      rw [hroute, handleMatrixImage_sent env msg _ _ h data hdown hcreate hwrite]
      simp [Host.gatewayCalls, List.filter_append, Call.isGateway]
    refine ⟨hroute, hsent, ?_⟩
    cases hdown : env.downloadMedia with
    | error err =>
      left
      rw [hroute]
      simp [handleMatrixImage, downloadFromMatrix, hdown, Host.call, Host.gatewayCalls,
        List.filter_append, Call.isGateway]
    | ok data =>
      cases hcreate : env.createTemp with
      | some err =>
        left
        rw [hroute]
        simp [handleMatrixImage, downloadFromMatrix, hdown, saveTempFile, hcreate, Host.call,
          Host.gatewayCalls, List.filter_append, Call.isGateway]
      | none =>
        cases hwrite : env.write with
        | some err =>
          left
          rw [hroute, handleMatrixImage_write_failed env msg _ _ h data err hdown hcreate hwrite]
          simp [Host.gatewayCalls, List.filter_append, Call.isGateway]
        | none =>
          right
          exact hsent data hdown hcreate hwrite

/-- C13 on a video message, which is rejected without a call, and on an image
message, for which send-image is the one gateway call. -/
theorem C13_outbound_routing_witness :
    HandleMatrixMessage allGood (outboundOf "m.video") quietHost =
      (quietHost, .error "unsupported message type: m.video") ∧
    (HandleMatrixMessage allGood (outboundOf "m.image") quietHost).1.gatewayCalls =
      [.sendImage "/tmp/mautrix-zalo-1234" "2468" 0] :=
  ⟨(C13_outbound_routing allGood (outboundOf "m.video") quietHost).1
      (by decide) (by decide) (by decide) (by decide),
   ((C13_outbound_routing allGood (outboundOf "m.image") quietHost).2.2 rfl).2.1
      [137, 80, 78, 71] rfl rfl rfl⟩

/-- C14, as stated, fails: the media is downloaded, the temporary file is
created and written, the gateway rejects the image, and `os.Remove` returns an
error, which `cleanupTempFile` discards. `handleMatrixImage` has called
`os.Remove` on the file as its last call, and the file still exists when it
returns. -/
theorem C14_file_stays_when_remove_fails :
    removeFails.createTemp = none ∧ removeFails.write = none ∧
    (handleMatrixImage removeFails (outboundOf "m.image") "2468" 0 quietHost).1.calls =
      [.downloadMedia "mxc://example.org/abc", .createTemp "mautrix-zalo-*",
       .writeFile "/tmp/mautrix-zalo-1234", .closeFile "/tmp/mautrix-zalo-1234",
       .sendImage "/tmp/mautrix-zalo-1234" "2468" 0, .removeFile "/tmp/mautrix-zalo-1234"] ∧
    "/tmp/mautrix-zalo-1234" ∈
      (handleMatrixImage removeFails (outboundOf "m.image") "2468" 0 quietHost).1.files := by
  decide

/-- C14, amended: when the media was downloaded and the temporary file
created, `handleMatrixImage` calls `os.Remove` on the temporary file exactly
once, as its last call before it returns, whatever the write and the gateway
call returned; and when that `os.Remove` returns no error the temporary file no
longer exists on return and the other files are as before. When the file is
created and the write fails, `saveTempFile` fails, its last call is `os.Remove`
on the file, and no file is left behind when that call returns no error. When
the write succeeds the file exists on return of `saveTempFile` and is the path
returned. -/
theorem C14_temp_file_removal_attempted :
    (∀ (env : OutboundEnv) (msg : MatrixMessage) (threadID : String) (threadType : Int)
        (h : Host) (data : List Nat),
      env.downloadMedia = .ok data → env.createTemp = none →
      (handleMatrixImage env msg threadID threadType h).1.calls.getLast? =
        some (.removeFile (tempName env)) ∧
      (handleMatrixImage env msg threadID threadType h).1.calls.count
          (.removeFile (tempName env)) =
        h.calls.count (.removeFile (tempName env)) + 1 ∧
      (env.remove = none →
        tempName env ∉ (handleMatrixImage env msg threadID threadType h).1.files ∧
        (handleMatrixImage env msg threadID threadType h).1.files =
          h.files.filter (fun f => f ≠ tempName env))) ∧
    (∀ (env : OutboundEnv) (data : List Nat) (h : Host) (err : String),
      env.createTemp = none → env.write = some err →
      (saveTempFile env data h).2 = .error ("write temp file: " ++ err) ∧
      (saveTempFile env data h).1.calls.getLast? = some (.removeFile (tempName env)) ∧
      (env.remove = none → tempName env ∉ (saveTempFile env data h).1.files)) ∧
    (∀ (env : OutboundEnv) (data : List Nat) (h : Host),
      env.createTemp = none → env.write = none →
      (saveTempFile env data h).2 = .ok (tempName env) ∧
      tempName env ∈ (saveTempFile env data h).1.files) := by
  refine ⟨?_, ?_, ?_⟩
  · intro env msg threadID threadType h data hdown hcreate
    cases hwrite : env.write with
    | none =>
      rw [handleMatrixImage_sent env msg threadID threadType h data hdown hcreate hwrite]
      refine ⟨by simp [List.getLast?_append], by simp [List.count_append, List.count_cons], ?_⟩
      intro hr
      simp [hr, List.mem_filter]
    | some err =>
      rw [handleMatrixImage_write_failed env msg threadID threadType h data err hdown hcreate
        hwrite]
      refine ⟨by simp [List.getLast?_append], by simp [List.count_append, List.count_cons], ?_⟩
      intro hr
      simp [hr, List.mem_filter]
  · intro env data h err hcreate hwrite
    rw [saveTempFile_write_failed env data h err hcreate hwrite]
    refine ⟨rfl, by simp [List.getLast?_append], ?_⟩
    intro hr
    simp [hr, List.mem_filter]
  · intro env data h hcreate hwrite
    rw [saveTempFile_created env data h hcreate hwrite]
    simp

/-- The amended C14 when the gateway rejects the image and when the write
fails, `os.Remove` working: removal is the last call and the temporary file is
gone in both cases. -/
theorem C14_temp_file_removal_attempted_witness :
    ((handleMatrixImage sendImageFails (outboundOf "m.image") "2468" 0
          quietHost).1.calls.getLast? = some (.removeFile "/tmp/mautrix-zalo-1234") ∧
      "/tmp/mautrix-zalo-1234" ∉
        (handleMatrixImage sendImageFails (outboundOf "m.image") "2468" 0 quietHost).1.files ∧
      (handleMatrixImage sendImageFails (outboundOf "m.image") "2468" 0 quietHost).1.files =
        ["/tmp/other"]) ∧
    "/tmp/mautrix-zalo-1234" ∉ (saveTempFile writeFails [137, 80] quietHost).1.files :=
  have hsend := C14_temp_file_removal_attempted.1 sendImageFails (outboundOf "m.image")
    "2468" 0 quietHost [137, 80, 78, 71] rfl rfl
  ⟨⟨hsend.1, (hsend.2.2 rfl).1, (hsend.2.2 rfl).2.trans (by decide)⟩,
   (C14_temp_file_removal_attempted.2.1 writeFails [137, 80] quietHost
      "no space left on device" rfl rfl).2.2 rfl⟩

/-! ## Conversion of inbound messages (handle_remote.go) -/

theorem ConvertMessage_image (env : MediaEnv) (data : SidecarMessageData)
    (imgData : List Nat) (mxcURI : String)
    (htype : data.MsgType = "image" ∨ data.MsgType = "gif") (hurl : data.MediaURL ≠ "")
    (hfetch : downloadFromURL env data.MediaURL = .ok imgData)
    (hhost : env.upload imgData "image" (env.detect imgData) = .ok mxcURI) :
    ConvertMessage env data =
      .ok { Parts := [{ Kind := .EventMessage,
                        Content := { MsgType := MsgImage, Body := "image", URL := mxcURI,
                                     Info := some { MimeType := env.detect imgData,
                                                    Width := data.Width,
                                                    Height := data.Height,
                                                    Size := imgData.length } } }] } := by
  simp [ConvertMessage, htype, convertImageMessage, hurl, hfetch, uploadToMatrix, detectMIME,
    hhost]

theorem ConvertMessage_sticker (env : MediaEnv) (data : SidecarMessageData)
    (stickerData : List Nat) (mxcURI : String)
    (htype : data.MsgType = "sticker") (hurl : data.MediaURL ≠ "")
    (hfetch : downloadFromURL env data.MediaURL = .ok stickerData)
    (hhost : env.upload stickerData "sticker.png" "image/png" = .ok mxcURI) :
    ConvertMessage env data =
      .ok { Parts := [{ Kind := .EventSticker,
                        Content := { MsgType := MsgImage, Body := "sticker", URL := mxcURI,
                                     Info := none } }] } := by
  have h1 : ¬ ("sticker" = "image" ∨ "sticker" = "gif") := by decide
  simp [ConvertMessage, htype, h1, convertStickerMessage, hurl, hfetch, uploadToMatrix, hhost]

/-- C15 fails on the code for a sticker: with the media address present, the
fetch and the re-host succeeding and the size 128 x 96 declared in the
payload, the converted sticker has the content reference and no `Info`, so it
carries neither a content type nor the declared width and height; the same
payload sent as a gif carries all of them. -/
theorem C15_sticker_carries_no_info :
    (mediaMessage "sticker").MediaURL ≠ "" ∧
    downloadFromURL mediaOk (mediaMessage "sticker").MediaURL = .ok [255, 216, 255, 224] ∧
    ConvertMessage mediaOk (mediaMessage "sticker") =
      .ok { Parts := [{ Kind := .EventSticker,
                        Content := { MsgType := "m.image", Body := "sticker",
                                     URL := "mxc://example.org/xyz", Info := none } }] } ∧
    (∀ m, ConvertMessage mediaOk (mediaMessage "sticker") = .ok m →
      ¬ carriesMedia m "mxc://example.org/xyz" (mediaMessage "sticker")) ∧
    (∀ m, ConvertMessage mediaOk (mediaMessage "gif") = .ok m →
      carriesMedia m "mxc://example.org/xyz" (mediaMessage "gif")) := by
  have hs := ConvertMessage_sticker mediaOk (mediaMessage "sticker") [255, 216, 255, 224]
    "mxc://example.org/xyz" rfl (by decide) rfl rfl
  have hg := ConvertMessage_image mediaOk (mediaMessage "gif") [255, 216, 255, 224]
    "mxc://example.org/xyz" (Or.inr rfl) (by decide) rfl rfl
  refine ⟨by decide, rfl, hs, ?_, ?_⟩
  · intro m hm
    rw [hs] at hm
    cases hm
    rintro ⟨part, hp, _, info, hinfo, _⟩
    simp only [List.cons.injEq, and_true] at hp
    subst hp
    simp at hinfo
  · intro m hm
    rw [hg] at hm
    cases hm
    exact ⟨_, rfl, rfl, _, rfl, by decide, rfl, rfl⟩

/-! ## The WebSocket address (events.go) -/

theorem wsURL_of_http (rest : String) : wsURL ("http" ++ rest) = "ws" ++ rest ++ "/ws" := by
  have hd : ("http" ++ rest).data = 'h' :: 't' :: 't' :: 'p' :: rest.data := by
    simp [String.data_append]
  apply String.ext
  simp [wsURL, hd, replaceFirst, List.isPrefixOf, String.data_append]

/-- C16: for every base address `http://<rest>` the address dialed is
`ws://<rest>/ws`, and for every base address `https://<rest>` it is
`wss://<rest>/ws`: the scheme is swapped, `/ws` is appended, and the rest of
the address (host, port, path) is the same text. `connectWS` dials this
address and no other. -/
theorem C16_ws_url_scheme_swap (rest : String) :
    wsURL ("http://" ++ rest) = "ws://" ++ rest ++ "/ws" ∧
    wsURL ("https://" ++ rest) = "wss://" ++ rest ++ "/ws" ∧
    (∀ (c : ZaloClient) (dialed : Except String Conn),
      (connectWS dialed c).1.dials = c.dials ++ [wsURL c.baseURL]) := by
  refine ⟨?_, ?_, ?_⟩
  · have h := wsURL_of_http ("://" ++ rest)
    have e1 : "http" ++ ("://" ++ rest) = "http://" ++ rest := by
      apply String.ext
      simp [String.data_append]
    have e2 : "ws" ++ ("://" ++ rest) = "ws://" ++ rest := by
      apply String.ext
      simp [String.data_append]
    rw [e1, e2] at h
    exact h
  · have h := wsURL_of_http ("s://" ++ rest)
    have e1 : "http" ++ ("s://" ++ rest) = "https://" ++ rest := by
      apply String.ext
      simp [String.data_append]
    have e2 : "ws" ++ ("s://" ++ rest) = "wss://" ++ rest := by
      apply String.ext
      simp [String.data_append]
    rw [e1, e2] at h
    exact h
  · intro c dialed
    cases dialed <;>
      simp [connectWS, ZaloClient.emit, ZaloClient.dials, List.filterMap_append]

/-! ## Handles and reconnect outcomes (events.go, client.go) -/

/-- C17 fails on the code. `Connect` dials handle 1 and installs it; after a
failed read the first redial of `handleWSReconnect` succeeds with handle 2,
which `connectWS` stores over handle 1 without closing it: handle 2 is
installed and no handle was ever closed, so handle 1 is still open. The same
happens when `Connect` runs again on the connected session, and a later
`Disconnect` closes handle 2 alone. -/
theorem C17_old_handle_left_open :
    liveClient.wsConn = some 1 ∧ liveClient.closes = [] ∧
    (handleWSReconnect redialOk 2 liveClient).wsConn = some 2 ∧
    (handleWSReconnect redialOk 2 liveClient).closes = [] ∧
    (Connect goodConnectAgain liveClient).wsConn = some 2 ∧
    (Connect goodConnectAgain liveClient).closes = [] ∧
    (Disconnect (handleWSReconnect redialOk 2 liveClient)).closes = [2] := by
  decide

theorem failedAttempts_dials (url : String) (count : Nat) (backoff : Duration) :
    (failedAttempts url count backoff).filterMap
        (fun e => match e with | .dial u => some u | _ => none) =
      List.replicate count url := by
  induction count generalizing backoff with
  | zero => rfl
  | succ count ih => simp [failedAttempts, ih, List.replicate_succ]

theorem failedAttempts_waits_length (url : String) (count : Nat) (backoff : Duration) :
    ((failedAttempts url count backoff).filterMap
        (fun e => match e with | .wait d => some d | _ => none)).length = count := by
  induction count generalizing backoff with
  | zero => rfl
  | succ count ih => simp [failedAttempts, ih]

theorem failedAttempts_readLoops (url : String) (count : Nat) (backoff : Duration) :
    (failedAttempts url count backoff).filterMap
        (fun e => match e with | .goReadLoop ctx => some ctx | _ => none) = [] := by
  induction count generalizing backoff with
  | zero => rfl
  | succ count ih => simp [failedAttempts, ih]

theorem reconnectLoop_first_success (env : ReconnectEnv) (ctx : Ctx) (failed : Nat) :
    ∀ (remaining attempt : Nat) (backoff : Duration) (c : ZaloClient) (conn : Conn),
      failed < remaining →
      (∀ i, attempt ≤ i → i < attempt + failed →
        env.cancelled i = false ∧ ∃ err, env.dial i = .error err) →
      env.cancelled (attempt + failed) = false →
      env.dial (attempt + failed) = .ok conn →
      reconnectLoop env ctx remaining attempt backoff c =
        { c with
          wsConn := some conn,
          effects := c.effects ++ failedAttempts (wsURL c.baseURL) failed backoff ++
            [.wait (backoffAfter failed backoff), .dial (wsURL c.baseURL), .goReadLoop ctx] } := by
  induction failed with
  | zero =>
    intro remaining attempt backoff c conn hlt _ hc hd
    obtain ⟨r, rfl⟩ : ∃ r, remaining = r + 1 := ⟨remaining - 1, by omega⟩
    simp only [Nat.add_zero] at hc hd
    simp [reconnectLoop, connectWS, hc, hd, ZaloClient.emit, failedAttempts, backoffAfter]
  | succ failed ih =>
    intro remaining attempt backoff c conn hlt hfail hc hd
    obtain ⟨r, rfl⟩ : ∃ r, remaining = r + 1 := ⟨remaining - 1, by omega⟩
    obtain ⟨hc0, err, hd0⟩ := hfail attempt (Nat.le_refl _) (by omega)
    have hidx : attempt + 1 + failed = attempt + (failed + 1) := by omega
    rw [reconnectLoop_failed_step env ctx r attempt backoff c err hc0 hd0,
      ih r (attempt + 1) _ _ conn (by omega)
        (fun i h1 h2 => hfail i (by omega) (by omega))
        (by rw [hidx]; exact hc) (by rw [hidx]; exact hd)]
    simp [ZaloClient.emit, failedAttempts, backoffAfter]

theorem reconnectLoop_cancelled (env : ReconnectEnv) (ctx : Ctx) (failed : Nat) :
    ∀ (remaining attempt : Nat) (backoff : Duration) (c : ZaloClient),
      failed < remaining →
      (∀ i, attempt ≤ i → i < attempt + failed →
        env.cancelled i = false ∧ ∃ err, env.dial i = .error err) →
      env.cancelled (attempt + failed) = true →
      reconnectLoop env ctx remaining attempt backoff c =
        { c with effects := c.effects ++ failedAttempts (wsURL c.baseURL) failed backoff } := by
  induction failed with
  | zero =>
    intro remaining attempt backoff c hlt _ hc
    obtain ⟨r, rfl⟩ : ∃ r, remaining = r + 1 := ⟨remaining - 1, by omega⟩
    simp only [Nat.add_zero] at hc
    simp [reconnectLoop, hc, failedAttempts]
  | succ failed ih =>
    intro remaining attempt backoff c hlt hfail hc
    obtain ⟨r, rfl⟩ : ∃ r, remaining = r + 1 := ⟨remaining - 1, by omega⟩
    obtain ⟨hc0, err, hd0⟩ := hfail attempt (Nat.le_refl _) (by omega)
    have hidx : attempt + 1 + failed = attempt + (failed + 1) := by omega
    rw [reconnectLoop_failed_step env ctx r attempt backoff c err hc0 hd0,
      ih r (attempt + 1) _ _ (by omega)
        (fun i h1 h2 => hfail i (by omega) (by omega))
        (by rw [hidx]; exact hc)]
    simp [ZaloClient.emit, failedAttempts]

/-- C18: when the first `failed` redials fail and redial number `failed + 1`
(at most the tenth) succeeds, none of the waits being cut short,
`handleWSReconnect` dials exactly `failed + 1` times after as many waits,
installs the new handle, starts one read loop on the same lifetime as its
last call, and leaves the live flag as it was. When instead the lifetime is
found cancelled in the wait after `failed` failed redials, it returns with
exactly those `failed` dials made, no read loop started, and the live flag and
the handle as they were. -/
theorem C18_first_success_or_cancel (env : ReconnectEnv) (ctx : Ctx) (c : ZaloClient)
    (failed : Nat) (hlt : failed < 10)
    (hfail : ∀ i, i < failed → env.cancelled i = false ∧ ∃ err, env.dial i = .error err) :
    (∀ conn, env.cancelled failed = false → env.dial failed = .ok conn →
      (handleWSReconnect env ctx c).dials =
        c.dials ++ List.replicate (failed + 1) (wsURL c.baseURL) ∧
      (handleWSReconnect env ctx c).waits.length = c.waits.length + (failed + 1) ∧
      (handleWSReconnect env ctx c).readLoops = c.readLoops ++ [ctx] ∧
      (∃ earlier, (handleWSReconnect env ctx c).effects = earlier ++ [.goReadLoop ctx]) ∧
      (handleWSReconnect env ctx c).loggedIn = c.loggedIn ∧
      (handleWSReconnect env ctx c).wsConn = some conn) ∧
    (env.cancelled failed = true →
      (handleWSReconnect env ctx c).dials =
        c.dials ++ List.replicate failed (wsURL c.baseURL) ∧
      (handleWSReconnect env ctx c).waits.length = c.waits.length + failed ∧
      (handleWSReconnect env ctx c).readLoops = c.readLoops ∧
      (handleWSReconnect env ctx c).loggedIn = c.loggedIn ∧
      (handleWSReconnect env ctx c).wsConn = c.wsConn) := by
  constructor
  · intro conn hc hd
    have hrun := reconnectLoop_first_success env ctx failed 10 0 Second c conn hlt
      (fun i _ h2 => hfail i (by omega)) (by simpa using hc) (by simpa using hd)
    unfold handleWSReconnect
    rw [hrun]
    refine ⟨?_, ?_, ?_,
      ⟨c.effects ++ failedAttempts (wsURL c.baseURL) failed Second ++
        [.wait (backoffAfter failed Second), .dial (wsURL c.baseURL)], by simp⟩, rfl, rfl⟩
    · simp [ZaloClient.dials, List.filterMap_append, failedAttempts_dials,
        List.replicate_succ']
    · simp [ZaloClient.waits, List.filterMap_append, failedAttempts_waits_length]
    · simp [ZaloClient.readLoops, List.filterMap_append, failedAttempts_readLoops]
  · intro hc
    have hrun := reconnectLoop_cancelled env ctx failed 10 0 Second c hlt
      (fun i _ h2 => hfail i (by omega)) (by simpa using hc)
    unfold handleWSReconnect
    rw [hrun]
    refine ⟨?_, ?_, ?_, rfl, rfl⟩
    · simp [ZaloClient.dials, List.filterMap_append, failedAttempts_dials]
    · simp [ZaloClient.waits, List.filterMap_append, failedAttempts_waits_length]
    · simp [ZaloClient.readLoops, List.filterMap_append, failedAttempts_readLoops]

/-- C18 on the connected session: when the third redial is the first to
succeed there are three dials and one new read loop and the session stays
live; when the lifetime is cancelled in the third wait there are two dials, no
new read loop, and the session stays live. -/
theorem C18_first_success_or_cancel_witness :
    ((handleWSReconnect thirdRedialOk 2 liveClient).dials =
        liveClient.dials ++ List.replicate 3 (wsURL liveClient.baseURL) ∧
      (handleWSReconnect thirdRedialOk 2 liveClient).readLoops = liveClient.readLoops ++ [2] ∧
      (handleWSReconnect thirdRedialOk 2 liveClient).loggedIn = true) ∧
    ((handleWSReconnect cancelledInThirdWait 2 liveClient).dials =
        liveClient.dials ++ List.replicate 2 (wsURL liveClient.baseURL) ∧
      (handleWSReconnect cancelledInThirdWait 2 liveClient).readLoops = liveClient.readLoops ∧
      (handleWSReconnect cancelledInThirdWait 2 liveClient).loggedIn = true) :=
  have hok := (C18_first_success_or_cancel thirdRedialOk 2 liveClient 2 (by decide)
    (fun i hi => ⟨rfl, "connection refused", by simp [thirdRedialOk, hi]⟩)).1 2 rfl rfl
  have hcut := (C18_first_success_or_cancel cancelledInThirdWait 2 liveClient 2 (by decide)
    (fun i hi => ⟨by simp [cancelledInThirdWait, hi], "connection refused", rfl⟩)).2 rfl
  ⟨⟨hok.1, hok.2.2.1, hok.2.2.2.2.1⟩, ⟨hcut.1, hcut.2.2.1, hcut.2.2.2.1⟩⟩

/-! ## Thread kinds outside direct and group (types.go, client.go) -/

/-- C19: when the text after the first `':'` is read by `Atoi` as the integer
`t`, `ParsePortalKey` returns the text before that `':'` and `t` itself,
whatever `t` is; `"abc:7"` decodes to `("abc", 7)`, a kind that is neither
direct nor group. `GetChatInfo` asks for the group exactly when the decoded
kind is 1, and then returns the group as a default room. For every other kind
its one call is the user lookup of the decoded id; when the lookup succeeds it
returns a direct-message room named after that user, with the user as the only
member and as the other party, and when the lookup fails it returns the error
of the lookup. -/
theorem C19_kind_passed_through :
    (∀ (key : PortalKey) (before after : String) (t : Int),
      key.ID = before ++ ":" ++ after → ':' ∉ before.data → Atoi after = some t →
      ParsePortalKey key = (before, t)) ∧
    (ParsePortalKey ⟨"abc:7", ""⟩ = ("abc", 7) ∧
      (7 : Int) ≠ ThreadTypeUser ∧ (7 : Int) ≠ ThreadTypeGroup) ∧
    (∀ (env : ChatInfoEnv) (key : PortalKey) (h : Host),
      (ParsePortalKey key).2 ≠ ThreadTypeGroup →
      (GetChatInfo env key h).1.calls = h.calls ++ [.getUserInfo (ParsePortalKey key).1] ∧
      (∀ user, env.getUserInfo (ParsePortalKey key).1 = .ok user →
        (GetChatInfo env key h).2 =
          .ok { Name := user.DisplayName, IsFull := true,
                MemberMap := [(user.ID, { Sender := user.ID, Membership := "join",
                                          Nickname := none })],
                OtherUserID := user.ID, RoomKind := .RoomTypeDM }) ∧
      (∀ err, env.getUserInfo (ParsePortalKey key).1 = .error err →
        (GetChatInfo env key h).2 = .error err)) ∧
    (∀ (env : ChatInfoEnv) (key : PortalKey) (h : Host),
      (ParsePortalKey key).2 = ThreadTypeGroup →
      (GetChatInfo env key h).1.calls = h.calls ++ [.getGroupInfo (ParsePortalKey key).1] ∧
      (∀ group, env.getGroupInfo (ParsePortalKey key).1 = .ok group →
        (GetChatInfo env key h).2 =
          .ok { Name := group.Name, IsFull := true,
                MemberMap := group.Members.foldl
                  (fun m x =>
                    mapSet m x.UserID
                      { Sender := x.UserID, Membership := "join",
                        Nickname := some x.DisplayName })
                  [],
                OtherUserID := "", RoomKind := .RoomTypeDefault })) := by
  refine ⟨?_, by decide, ?_, ?_⟩
  · intro key before after t hid hsep hat
    rw [ParsePortalKey_of_cut key before after hid hsep, hat]
  · intro env key h hk
    refine ⟨?_, ?_, ?_⟩
    · cases hu : env.getUserInfo (ParsePortalKey key).1 <;>
        simp [GetChatInfo, hk, hu, Host.call]
    · intro user hu
      simp [GetChatInfo, hk, hu]
    · intro err hu
      simp [GetChatInfo, hk, hu]
  · intro env key h hk
    refine ⟨?_, ?_⟩
    · cases hg : env.getGroupInfo (ParsePortalKey key).1 <;>
        simp [GetChatInfo, hk, hg, Host.call]
    · intro group hg
      simp [GetChatInfo, hk, hg]

/-- C19 at the key `"abc:7"`: it decodes to kind 7, and `GetChatInfo` looks the
id `abc` up as a user and returns the direct-message room with that user. -/
theorem C19_kind_passed_through_witness :
    ParsePortalKey ⟨"abc:7", ""⟩ = ("abc", 7) ∧
    (GetChatInfo directory ⟨"abc:7", ""⟩ quietHost).1.calls = [.getUserInfo "abc"] ∧
    (GetChatInfo directory ⟨"abc:7", ""⟩ quietHost).2 =
      .ok { Name := "Lan", IsFull := true,
            MemberMap := [("abc", { Sender := "abc", Membership := "join",
                                    Nickname := none })],
            OtherUserID := "abc", RoomKind := .RoomTypeDM } :=
  ⟨C19_kind_passed_through.1 ⟨"abc:7", ""⟩ "abc" "7" 7 (by decide) (by decide) (by decide),
   (C19_kind_passed_through.2.2.1 directory ⟨"abc:7", ""⟩ quietHost (by decide)).1,
   (C19_kind_passed_through.2.2.1 directory ⟨"abc:7", ""⟩ quietHost (by decide)).2.1
     { ID := "abc", DisplayName := "Lan", AvatarURL := "" } rfl⟩

end Connector
